import Mathlib

/-!
# Shallow embedding of the Hos_Link hospital referral / ambulance dispatch core

This file embeds the state-bearing core of `Hos_Link.py` — the entity store
(`Database`), the referral service (`ReferralService.assign_ambulance`,
`ReferralService.create_referral`), the ambulance location service
(`AmbulanceService.update_ambulance_location`), the movement simulator
(`LocationSimulator.start_simulation` / `stop_simulation`), and the UI-level
operations that mutate stored state (referral creation, handover creation,
driver mission accept/complete and quick status actions) — and proves
properties of those operations.

Modelling conventions:
* SQLAlchemy tables become Lean lists of structures; a row update through the
  session becomes a pointwise map keyed on the primary key (`updateWhere`).
* Python float coordinates are modelled as exact rationals (`ℚ`).
* Timestamps (`datetime.utcnow`) and ORM plumbing are not modelled.
* Randomly generated IDs (`secrets.token_hex`) are supplied as parameters.
* Python truthiness of an optional string (`if patient_id:`) is `pyTruthy`:
  `None` and the empty string are falsy.
* The simulator's cooperatively-checked `running` flag is modelled by a
  cancellation schedule: `cancel = some c` means the flag is observed `False`
  from the `c`-th check on (the loop checks at ticks `0..20`; the end-of-run
  release guard is the 21st check).
* A Streamlit `st.error` path that commits nothing is modelled as an
  `Except.error` result carrying the displayed message's identity.
-/

/-- Update, in place, every element of a list satisfying `p` (row update by
primary key; with unique keys this is SQLAlchemy's fetch-first-then-mutate). -/
def updateWhere {α : Type} (l : List α) (p : α → Bool) (f : α → α) : List α :=
  l.map (fun a => if p a then f a else a)

/-- Python truthiness of an optional string: `None` and `""` are falsy. -/
def pyTruthy : Option String → Bool
  | none => false
  | some s => !s.isEmpty

/-- Vital-signs snapshot recorded on a handover form. -/
structure Vitals where
  blood_pressure : String
  heart_rate : Nat
  temperature : ℚ
  oxygen_saturation : Nat
deriving DecidableEq

/-- A row of the `patients` table. -/
structure Patient where
  patient_id : String
  name : String
  age : Nat
  condition : String
  referring_hospital : String
  receiving_hospital : String
  referring_physician : String
  receiving_physician : Option String := none
  notes : String := ""
  medical_history : String := ""
  current_medications : String := ""
  allergies : String := ""
  status : String := "Referred"
  assigned_ambulance : Option String := none
  created_by : Option String := none
  referring_hospital_lat : Option ℚ := none
  referring_hospital_lng : Option ℚ := none
  receiving_hospital_lat : Option ℚ := none
  receiving_hospital_lng : Option ℚ := none
deriving DecidableEq

/-- A row of the `ambulances` table. -/
structure Ambulance where
  ambulance_id : String
  current_location : Option String := none
  latitude : Option ℚ := none
  longitude : Option ℚ := none
  status : String := "Available"
  driver_name : Option String := none
  driver_contact : Option String := none
  current_patient : Option String := none
  mission_complete : Bool := false
deriving DecidableEq

/-- A row of the `referrals` table (append-only audit record). -/
structure Referral where
  patient_id : String
  ambulance_id : Option String := none
  created_by : Option String := none
deriving DecidableEq

/-- A row of the `handover_forms` table. -/
structure HandoverForm where
  patient_id : String
  patient_name : String
  age : Nat
  condition : String
  referring_hospital : String
  receiving_hospital : String
  referring_physician : String
  receiving_physician : String
  vital_signs : Vitals
  medical_history : String
  current_medications : String
  allergies : String
  notes : String
  ambulance_id : Option String
  created_by : String
deriving DecidableEq

/-- A row of the `communications` table (append-only). -/
structure Communication where
  patient_id : Option String := none
  ambulance_id : Option String := none
  sender : String
  receiver : String
  message : String
  message_type : String
deriving DecidableEq

/-- A row of the `location_updates` table (append-only). -/
structure LocationUpd where
  ambulance_id : String
  latitude : ℚ
  longitude : ℚ
  location_name : String
  patient_id : Option String
deriving DecidableEq

/-- The entity store: one list per SQLAlchemy table. -/
structure Database where
  patients : List Patient := []
  ambulances : List Ambulance := []
  referrals : List Referral := []
  handover_forms : List HandoverForm := []
  communications : List Communication := []
  location_updates : List LocationUpd := []
deriving DecidableEq

namespace Database

/-- `Database.add_patient`: append the new row (the generated
`patient_id` is already filled in by the caller). -/
def add_patient (db : Database) (p : Patient) : Database :=
  { db with patients := db.patients ++ [p] }

/-- `Database.get_patient_by_id`: first row matching the primary key. -/
def get_patient_by_id (db : Database) (patient_id : String) : Option Patient :=
  db.patients.find? (fun p => p.patient_id == patient_id)

/-- `Database.get_available_ambulances`. -/
def get_available_ambulances (db : Database) : List Ambulance :=
  db.ambulances.filter (fun a => a.status == "Available")

/-- `Database.update_ambulance_status(ambulance_id, status, patient_id=None)`:
set `status` on the matching row; set `current_patient` only when
`patient_id` is truthy (`if patient_id:`) — it is never cleared here. -/
def update_ambulance_status (db : Database) (ambulance_id status : String)
    (patient_id : Option String) : Database :=
  let upd : Ambulance → Ambulance := fun a =>
    { a with
      status := status,
      current_patient := if pyTruthy patient_id then patient_id else a.current_patient }
  { db with ambulances :=
      updateWhere db.ambulances (fun a => a.ambulance_id == ambulance_id) upd }

/-- `Database.add_referral`. -/
def add_referral (db : Database) (r : Referral) : Database :=
  { db with referrals := db.referrals ++ [r] }

/-- `Database.add_handover_form`. -/
def add_handover_form (db : Database) (h : HandoverForm) : Database :=
  { db with handover_forms := db.handover_forms ++ [h] }

/-- `Database.add_communication`. -/
def add_communication (db : Database) (c : Communication) : Database :=
  { db with communications := db.communications ++ [c] }

/-- `Database.add_location_update`. -/
def add_location_update (db : Database) (u : LocationUpd) : Database :=
  { db with location_updates := db.location_updates ++ [u] }

/-- Whether an `ambulances` row with this primary key exists. -/
def ambExists (db : Database) (ambulance_id : String) : Bool :=
  db.ambulances.any (fun a => a.ambulance_id == ambulance_id)

/-- The matching ambulance row, if any. -/
def findAmb (db : Database) (ambulance_id : String) : Option Ambulance :=
  db.ambulances.find? (fun a => a.ambulance_id == ambulance_id)

end Database

-- =============================================================================
-- SERVICES
-- =============================================================================

namespace ReferralService

/-- `ReferralService.create_referral(patient_data, user)`: stamp `created_by`,
add the patient row (`fresh_id` models the generated `PAT…` identifier when
`patient_data` carries none), then append the audit `Referral` row. -/
def create_referral (db : Database) (patient_data : Patient) (user_role : String) :
    Database × Patient :=
  let patient := { patient_data with created_by := some user_role }
  let db1 := db.add_patient patient
  let db2 := db1.add_referral
    { patient_id := patient.patient_id,
      ambulance_id := patient.assigned_ambulance,
      created_by := some user_role }
  (db2, patient)

/-- `ReferralService.assign_ambulance(patient_id, ambulance_id)`: if the
patient exists, set `assigned_ambulance` and status `Ambulance Assigned`,
commit, then `update_ambulance_status(ambulance_id, 'On Transfer',
patient_id)` and return `True`; otherwise return `False`.  There is no
availability check on the ambulance and no rollback of the committed
patient-side update. -/
def assign_ambulance (db : Database) (patient_id ambulance_id : String) :
    Database × Bool :=
  match db.get_patient_by_id patient_id with
  | some _ =>
      let upd : Patient → Patient := fun p =>
        { p with assigned_ambulance := some ambulance_id, status := "Ambulance Assigned" }
      let db1 : Database :=
        { db with patients := updateWhere db.patients (fun p => p.patient_id == patient_id) upd }
      (db1.update_ambulance_status ambulance_id "On Transfer" (some patient_id), true)
  | none => (db, false)

end ReferralService

namespace AmbulanceService

/-- `AmbulanceService.update_ambulance_location`: if the ambulance row exists,
overwrite its coordinates and location label, append a `LocationUpdate` row
and return `True`; otherwise nothing is written and the result is `False`. -/
def update_ambulance_location (db : Database) (ambulance_id : String)
    (latitude longitude : ℚ) (location_name : String)
    (patient_id : Option String) : Database × Bool :=
  if db.ambExists ambulance_id then
    let upd : Ambulance → Ambulance := fun a =>
      { a with
        latitude := some latitude,
        longitude := some longitude,
        current_location := some location_name }
    let db1 : Database :=
      { db with ambulances :=
          updateWhere db.ambulances (fun a => a.ambulance_id == ambulance_id) upd }
    (db1.add_location_update
      { ambulance_id := ambulance_id, latitude := latitude, longitude := longitude,
        location_name := location_name, patient_id := patient_id }, true)
  else (db, false)

end AmbulanceService

namespace LocationSimulator

/-- The loop constant `steps = 20`. -/
def steps : Nat := 20

/-- `running` as observed at the `t`-th cooperative check: `cancel = some c`
means `stop_simulation` has taken effect by check `c` (and stays in effect);
`cancel = none` is an uncancelled run. -/
def runningAt (cancel : Option Nat) (t : Nat) : Bool :=
  match cancel with
  | none => true
  | some c => t < c

/-- The position sample of step `k`:
`current_lat = start_lat + (lat_step * step)` with
`lat_step = (end_lat - start_lat) / steps`. -/
def sampleCoord (start_c end_c : ℚ) (k : Nat) : ℚ :=
  start_c + (end_c - start_c) / (steps : ℚ) * (k : ℚ)

/-- The `LocationUpdate` row written at step `k`
(label `f"En route - Step {step}/{steps}"`). -/
def sampleRec (ambulance_id patient_id : String)
    (start_lat start_lng end_lat end_lng : ℚ) (k : Nat) : LocationUpd :=
  { ambulance_id := ambulance_id,
    latitude := sampleCoord start_lat end_lat k,
    longitude := sampleCoord start_lng end_lng k,
    location_name := "En route - Step " ++ toString k ++ "/" ++ toString steps,
    patient_id := some patient_id }

/-- One loop iteration: compute the step's coordinates and write them through
`update_ambulance_location` (the `time.sleep(5)` cadence is not modelled). -/
def stepWrite (ambulance_id patient_id : String)
    (start_lat start_lng end_lat end_lng : ℚ) (db : Database) (k : Nat) : Database :=
  (AmbulanceService.update_ambulance_location db ambulance_id
    (sampleCoord start_lat end_lat k) (sampleCoord start_lng end_lng k)
    ("En route - Step " ++ toString k ++ "/" ++ toString steps)
    (some patient_id)).1

/-- The end-of-run write (`# Mark as arrived`): set the ambulance `Available`
and clear `current_patient`.  `mission_complete` is not consulted. -/
def markArrived (db : Database) (ambulance_id : String) : Database :=
  let upd : Ambulance → Ambulance := fun a =>
    { a with status := "Available", current_patient := none }
  { db with ambulances :=
      updateWhere db.ambulances (fun a => a.ambulance_id == ambulance_id) upd }

/-- `LocationSimulator.start_simulation`: iterate steps `0..steps`, breaking
at the first check where `running` is observed false (`stop_simulation` is
modelled by the `cancel` schedule), writing each surviving step through
`update_ambulance_location`; afterwards, if `running` still holds at the
final check, perform the arrival release. -/
def start_simulation (db : Database) (ambulance_id patient_id : String)
    (start_lat start_lng end_lat end_lng : ℚ) (cancel : Option Nat) : Database :=
  let emitted := (List.range (steps + 1)).takeWhile (runningAt cancel)
  let db1 := emitted.foldl
    (stepWrite ambulance_id patient_id start_lat start_lng end_lat end_lng) db
  if runningAt cancel (steps + 1) then markArrived db1 ambulance_id else db1

end LocationSimulator

-- =============================================================================
-- UI-LEVEL OPERATIONS (the source's Streamlit handlers that mutate the store)
-- =============================================================================

/-- Identity of an `st.error` refusal path that commits nothing. -/
inductive UIError : Type
  /-- "Please fill in all required fields (*)" -/
  | missingFields
  /-- "Referring and receiving hospitals cannot be the same." -/
  | sameHospital
  /-- "Please enter the receiving physician" -/
  | missingPhysician
  /-- The patient is absent from the handover form's eligible-patient list
  (only patients with status `Arrived at Destination`, scoped to the user's
  receiving hospital, can be selected). -/
  | notEligible
deriving DecidableEq

/-- Truthiness of a form's text field. -/
def pyTruthyS (s : String) : Bool := !s.isEmpty

namespace ReferralUI

/-- The fields of the referral creation form. -/
structure ReferralInput where
  name : String
  age : Nat
  condition : String
  referring_physician : String
  referring_hospital : String
  receiving_hospital : String
  receiving_physician : String := ""
  notes : String := ""
  medical_history : String := ""
  current_medications : String := ""
  allergies : String := ""
  /-- `none` models the "Auto-assign" choice. -/
  ambulance_choice : Option String := none
deriving DecidableEq

/-- `ReferralUI.create_referral_form` submit handler:
`if not all([name, age, condition, referring_physician, referring_hospital,
receiving_hospital])` refuse with the missing-fields error (Python truthiness:
`age = 0` counts as missing); `elif referring_hospital == receiving_hospital`
refuse; otherwise build `patient_data` with status `Referred`, the hospital
coordinates looked up from the hospitals table (`hosp_coords`), and hand it to
`ReferralService.create_referral`.  `fresh_id` models the generated
`PAT…` patient ID. -/
def create_referral_form (db : Database) (fresh_id : String)
    (hosp_coords : String → ℚ × ℚ) (inp : ReferralInput) (user_role : String) :
    Except UIError (Database × Patient) :=
  if !(pyTruthyS inp.name && (inp.age != 0) && pyTruthyS inp.condition &&
       pyTruthyS inp.referring_physician && pyTruthyS inp.referring_hospital &&
       pyTruthyS inp.receiving_hospital) then
    .error .missingFields
  else if inp.referring_hospital == inp.receiving_hospital then
    .error .sameHospital
  else
    let patient_data : Patient :=
      { patient_id := fresh_id,
        name := inp.name,
        age := inp.age,
        condition := inp.condition,
        referring_hospital := inp.referring_hospital,
        receiving_hospital := inp.receiving_hospital,
        referring_physician := inp.referring_physician,
        receiving_physician := some inp.receiving_physician,
        notes := inp.notes,
        medical_history := inp.medical_history,
        current_medications := inp.current_medications,
        allergies := inp.allergies,
        status := "Referred",
        assigned_ambulance := inp.ambulance_choice,
        referring_hospital_lat := some (hosp_coords inp.referring_hospital).1,
        referring_hospital_lng := some (hosp_coords inp.referring_hospital).2,
        receiving_hospital_lat := some (hosp_coords inp.receiving_hospital).1,
        receiving_hospital_lng := some (hosp_coords inp.receiving_hospital).2 }
    .ok (ReferralService.create_referral db patient_data user_role)

/-- The "Update Status" patient action: overwrite the patient's status with
the selected value. -/
def update_patient_status (db : Database) (patient_id new_status : String) : Database :=
  let upd : Patient → Patient := fun p => { p with status := new_status }
  { db with patients := updateWhere db.patients (fun p => p.patient_id == patient_id) upd }

end ReferralUI

namespace HandoverUI

/-- The `handover_data` snapshot built by the submit handler: the selected
patient's clinical fields plus the form's vitals, physician and notes. -/
def handover_data (p : Patient) (vitals : Vitals)
    (receiving_physician handover_notes user_role : String) : HandoverForm :=
  { patient_id := p.patient_id, patient_name := p.name, age := p.age,
    condition := p.condition, referring_hospital := p.referring_hospital,
    receiving_hospital := p.receiving_hospital,
    referring_physician := p.referring_physician,
    receiving_physician := receiving_physician,
    vital_signs := vitals, medical_history := p.medical_history,
    current_medications := p.current_medications,
    allergies := p.allergies, notes := handover_notes,
    ambulance_id := p.assigned_ambulance, created_by := user_role }

/-- `HandoverUI.create_handover_form` submit handler.  A patient is eligible
only when its status is `Arrived at Destination` (and, for a non-admin user —
`user_hospital = some h` — only when `receiving_hospital = h`); an ineligible
or unknown patient can never be submitted.  An empty receiving physician is
refused.  Otherwise the handover snapshot is appended and the patient's
status becomes `Completed` (and its `receiving_physician` is recorded). -/
def create_handover_form (db : Database) (user_hospital : Option String)
    (patient_id : String) (vitals : Vitals)
    (receiving_physician handover_notes : String) (user_role : String) :
    Except UIError Database :=
  match db.get_patient_by_id patient_id with
  | none => .error .notEligible
  | some p =>
    if !(p.status == "Arrived at Destination" &&
         (match user_hospital with
          | none => true
          | some h => p.receiving_hospital == h)) then
      .error .notEligible
    else if !(pyTruthyS receiving_physician) then
      .error .missingPhysician
    else
      let form := handover_data p vitals receiving_physician handover_notes user_role
      let db1 := db.add_handover_form form
      let upd : Patient → Patient := fun q =>
        { q with status := "Completed", receiving_physician := some receiving_physician }
      .ok { db1 with patients :=
              updateWhere db1.patients (fun q => q.patient_id == patient_id) upd }

end HandoverUI

namespace DriverUI

/-- The "Accept Mission" handler: bind the ambulance and patient to each
other, with ambulance status `On Transfer` and patient status
`Ambulance Dispatched` (the simulation thread it spawns is modelled
separately by `LocationSimulator.start_simulation`). -/
def accept_mission (db : Database) (ambulance_id patient_id : String) : Database :=
  let updA : Ambulance → Ambulance := fun a =>
    { a with current_patient := some patient_id, status := "On Transfer" }
  let updP : Patient → Patient := fun p =>
    { p with assigned_ambulance := some ambulance_id, status := "Ambulance Dispatched" }
  let db1 : Database :=
    { db with ambulances :=
        updateWhere db.ambulances (fun a => a.ambulance_id == ambulance_id) updA }
  { db1 with patients := updateWhere db1.patients (fun p => p.patient_id == patient_id) updP }

/-- `DriverUI.complete_mission`: release the ambulance (status `Available`,
`current_patient` cleared, `mission_complete` set), move the patient to
`Arrived at Destination`, and append the two arrival messages. -/
def complete_mission (db : Database) (ambulance_id patient_id : String) : Database :=
  match db.get_patient_by_id patient_id with
  | none => db
  | some p =>
    let updA : Ambulance → Ambulance := fun a =>
      { a with status := "Available", current_patient := none, mission_complete := true }
    let updP : Patient → Patient := fun q => { q with status := "Arrived at Destination" }
    let db1 : Database :=
      { db with ambulances :=
          updateWhere db.ambulances (fun a => a.ambulance_id == ambulance_id) updA }
    let db2 : Database :=
      { db1 with patients :=
          updateWhere db1.patients (fun q => q.patient_id == patient_id) updP }
    let msg := "Patient " ++ p.name ++ " has arrived via ambulance " ++ ambulance_id
    [p.referring_hospital, p.receiving_hospital].foldl
      (fun d hospital => d.add_communication
        { patient_id := some patient_id, ambulance_id := some ambulance_id,
          sender := "Driver", receiver := hospital, message := msg,
          message_type := "arrival_notification" })
      db2

/-- Quick action "🔄 Mark Available": status `Available`, `current_patient`
cleared. -/
def mark_available (db : Database) (ambulance_id : String) : Database :=
  let upd : Ambulance → Ambulance := fun a =>
    { a with status := "Available", current_patient := none }
  { db with ambulances :=
      updateWhere db.ambulances (fun a => a.ambulance_id == ambulance_id) upd }

/-- Quick action "⛑️ Mark On Break": status `On Break`; `current_patient` is
left untouched. -/
def mark_on_break (db : Database) (ambulance_id : String) : Database :=
  let upd : Ambulance → Ambulance := fun a => { a with status := "On Break" }
  { db with ambulances :=
      updateWhere db.ambulances (fun a => a.ambulance_id == ambulance_id) upd }

/-- Quick action "🔧 Maintenance": status `Maintenance`; `current_patient` is
left untouched. -/
def mark_maintenance (db : Database) (ambulance_id : String) : Database :=
  let upd : Ambulance → Ambulance := fun a => { a with status := "Maintenance" }
  { db with ambulances :=
      updateWhere db.ambulances (fun a => a.ambulance_id == ambulance_id) upd }

end DriverUI

-- =============================================================================
-- OBSERVATIONS AND EXAMPLE STORES
-- =============================================================================

namespace Database

/-- The stored status of an ambulance, when the row exists. -/
def ambStatus (db : Database) (ambulance_id : String) : Option String :=
  (db.findAmb ambulance_id).map (fun a => a.status)

/-- The stored `current_patient` of an ambulance, when the row exists. -/
def ambPatient (db : Database) (ambulance_id : String) : Option (Option String) :=
  (db.findAmb ambulance_id).map (fun a => a.current_patient)

/-- The stored `mission_complete` flag of an ambulance, when the row exists. -/
def ambMission (db : Database) (ambulance_id : String) : Option Bool :=
  (db.findAmb ambulance_id).map (fun a => a.mission_complete)

end Database

/-- The cross-reference invariant of one ambulance row:
`current_patient` set ⇔ status `On Transfer`. -/
def linkInvA (a : Ambulance) : Prop :=
  a.current_patient ≠ none ↔ a.status = "On Transfer"

/-- The ambulance/patient cross-reference invariant over the store. -/
def linkInv (db : Database) : Prop := ∀ a ∈ db.ambulances, linkInvA a

/-- The referral invariant of one patient row. -/
def hospInvP (p : Patient) : Prop := p.referring_hospital ≠ p.receiving_hospital

/-- `referring_hospital ≠ receiving_hospital` over the whole store. -/
def hospInv (db : Database) : Prop := ∀ p ∈ db.patients, hospInvP p

instance (a : Ambulance) : Decidable (linkInvA a) := by unfold linkInvA; infer_instance

instance (db : Database) : Decidable (linkInv db) := by
  unfold linkInv; exact List.decidableBAll _ _

instance (p : Patient) : Decidable (hospInvP p) := by unfold hospInvP; infer_instance

instance (db : Database) : Decidable (hospInv db) := by
  unfold hospInv; exact List.decidableBAll _ _

/-- A sample referred patient (JOOTRH → Kisumu County Referral Hospital). -/
def exPatient (pid : String) : Patient :=
  { patient_id := pid, name := "Jane Doe", age := 30, condition := "Fracture",
    referring_hospital := "Jaramogi Oginga Odinga Teaching & Referral Hospital (JOOTRH)",
    receiving_hospital := "Kisumu County Referral Hospital",
    referring_physician := "Dr. A" }

/-- A sample fleet ambulance. -/
def exAmb (aid : String) : Ambulance :=
  { ambulance_id := aid, driver_name := some "John Omondi" }

/-- C1 counterexample store: one referred patient, empty fleet. -/
def exDbC1 : Database := { patients := [exPatient "P1"] }

/-- C1 witness store: one referred patient and one available ambulance. -/
def exDbC1w : Database := { patients := [exPatient "P1"], ambulances := [exAmb "A1"] }

/-- C2 counterexample store: an ambulance mid-transfer (invariant holds). -/
def exDbC2 : Database :=
  let p1 : Patient :=
    { exPatient "P1" with status := "Ambulance Dispatched", assigned_ambulance := some "A1" }
  let a1 : Ambulance :=
    { exAmb "A1" with status := "On Transfer", current_patient := some "P1" }
  { patients := [p1], ambulances := [a1] }

/-- C3 store: two referred patients and one available ambulance. -/
def exDbC3 : Database :=
  { patients := [exPatient "P1", exPatient "P2"], ambulances := [exAmb "A1"] }

/-- C4 witness store: one fleet ambulance. -/
def exDbC4 : Database := { ambulances := [exAmb "A1"] }

/-- C5 counterexample store: the mission was already completed by a manual
"Mark Patient Delivered" (`mission_complete` set) and the driver then went on
break, while the simulation thread is still running. -/
def exDbC5 : Database :=
  { ambulances := [{ exAmb "A1" with status := "On Break", mission_complete := true }] }

/-- C6 witness store: an ambulance mid-transfer. -/
def exDbC6 : Database :=
  { ambulances := [{ exAmb "A1" with status := "On Transfer", current_patient := some "P1" }] }

/-- C7 witness store: a patient who has arrived at the destination. -/
def exDbC7 : Database :=
  let p1 : Patient :=
    { exPatient "P1" with status := "Arrived at Destination", assigned_ambulance := some "A1" }
  { patients := [p1] }

/-- Sample vitals for a handover form. -/
def exVitals : Vitals :=
  { blood_pressure := "120/80", heart_rate := 72, temperature := 36.6,
    oxygen_saturation := 98 }

/-- C8 witness store: empty. -/
def exDbC8 : Database := {}

/-- A referral form input whose two hospitals coincide. -/
def exInpC8 : ReferralUI.ReferralInput :=
  { name := "Jane Doe", age := 30, condition := "Fracture",
    referring_physician := "Dr. A",
    referring_hospital := "Kisumu County Referral Hospital",
    receiving_hospital := "Kisumu County Referral Hospital" }

/-- C9 scenario: initial store, one available ambulance `A1`. -/
def exDbC9 : Database := { ambulances := [exAmb "A1"] }

/-- C9 scenario: the referral-form input for patient P1. -/
def exInpC9 : ReferralUI.ReferralInput :=
  { name := "P One", age := 30, condition := "Trauma",
    referring_physician := "Dr. R",
    referring_hospital := "Jaramogi Oginga Odinga Teaching & Referral Hospital (JOOTRH)",
    receiving_hospital := "Kisumu County Referral Hospital" }

/-- C9 scenario after `create` (patient ID `P1`). -/
def exDbC9a : Database :=
  match ReferralUI.create_referral_form exDbC9 "P1" (fun _ => (0, 0)) exInpC9 "Hospital Staff" with
  | .ok (d, _) => d
  | .error _ => exDbC9

/-- C9 scenario after `assign_ambulance("P1", "A1")`. -/
def exDbC9b : Database := (ReferralService.assign_ambulance exDbC9a "P1" "A1").1

/-- C9 scenario after releasing `A1` ("Mark Available"). -/
def exDbC9c : Database := DriverUI.mark_available exDbC9b "A1"

/-- C10 witness store: one on-transfer and one available ambulance. -/
def exDbC10 : Database :=
  { ambulances := [{ exAmb "A1" with status := "On Transfer", current_patient := some "P1" },
                   exAmb "A2"] }

-- =============================================================================
-- GENERIC LEMMAS ON THE ROW-UPDATE COMBINATOR
-- =============================================================================

theorem updateWhere_nil {α : Type} (p : α → Bool) (f : α → α) :
    updateWhere ([] : List α) p f = [] := rfl

theorem updateWhere_cons {α : Type} (a : α) (l : List α) (p : α → Bool) (f : α → α) :
    updateWhere (a :: l) p f = (if p a then f a else a) :: updateWhere l p f := rfl

/-- An update keyed on `p` does not disturb any observation `g` that the row
transformer preserves. -/
theorem map_updateWhere {α β : Type} (l : List α) (p : α → Bool) (f : α → α)
    (g : α → β) (hg : ∀ a, g (f a) = g a) :
    (updateWhere l p f).map g = l.map g := by
  induction l with
  | nil => rfl
  | cons a l ih =>
    rw [updateWhere_cons, List.map_cons, List.map_cons, ih]
    by_cases hp : p a <;> simp [hp, hg]

theorem any_updateWhere {α : Type} (l : List α) (p q : α → Bool) (f : α → α)
    (hq : ∀ a, q (f a) = q a) :
    (updateWhere l p f).any q = l.any q := by
  induction l with
  | nil => rfl
  | cons a l ih =>
    rw [updateWhere_cons, List.any_cons, List.any_cons, ih]
    by_cases hp : p a <;> simp [hp, hq]

/-- Row lookup after an update whose transformer preserves the lookup key. -/
theorem find?_updateWhere {α : Type} (l : List α) (p q : α → Bool) (f : α → α)
    (hq : ∀ a, q (f a) = q a) :
    (updateWhere l p f).find? q = (l.find? q).map (fun a => if p a then f a else a) := by
  induction l with
  | nil => rfl
  | cons a l ih =>
    rw [updateWhere_cons]
    by_cases hqa : q a
    · have h1 : q (if p a then f a else a) = true := by
        by_cases hp : p a <;> simp [hp, hq, hqa]
      rw [List.find?_cons_of_pos _ h1, List.find?_cons_of_pos _ hqa]
      rfl
    · have h1 : ¬ q (if p a then f a else a) = true := by
        by_cases hp : p a <;> simp [hp, hq] <;> simpa using hqa
      rw [List.find?_cons_of_neg _ h1, List.find?_cons_of_neg _ hqa, ih]

/-- An update whose key matches no row is the identity. -/
theorem updateWhere_eq_self {α : Type} (l : List α) (p : α → Bool) (f : α → α)
    (h : l.any p = false) : updateWhere l p f = l := by
  induction l with
  | nil => rfl
  | cons a l ih =>
    rw [List.any_cons] at h
    rw [updateWhere_cons]
    have hpa : p a = false := by
      cases hpa : p a
      · rfl
      · rw [hpa] at h; simp at h
    have hl : l.any p = false := by
      cases hl : l.any p
      · rfl
      · rw [hl] at h; simp at h
    rw [hpa] at *
    simp [ih hl]

/-- Membership in an updated list: every element is an original row or an
updated original row that matched the key. -/
theorem mem_updateWhere {α : Type} {l : List α} {p : α → Bool} {f : α → α} {b : α}
    (hb : b ∈ updateWhere l p f) :
    ∃ a ∈ l, (p a = true ∧ b = f a) ∨ (p a = false ∧ b = a) := by
  unfold updateWhere at hb
  rcases List.mem_map.mp hb with ⟨a, ha, rfl⟩
  refine ⟨a, ha, ?_⟩
  by_cases hp : p a <;> simp [hp]

-- =============================================================================
-- RANGE / TAKEWHILE LEMMAS FOR THE SIMULATION LOOP
-- =============================================================================

theorem takeWhile_true_eq_self {α : Type} (l : List α) :
    l.takeWhile (fun _ => true) = l := by
  induction l with
  | nil => rfl
  | cons a l ih => simp [List.takeWhile_cons, ih]

/-- The cooperative break: iterating `0..n-1` and stopping at the first check
`≥ c` runs exactly the steps `0..min c n - 1`. -/
theorem takeWhile_lt_range (c n : Nat) :
    (List.range n).takeWhile (fun t => decide (t < c)) = List.range (min c n) := by
  induction n with
  | zero => simp
  | succ n ih =>
    rw [List.range_succ, List.takeWhile_append, ih]
    rcases Nat.lt_or_ge n c with h | h
    · have h1 : min c n = n := Nat.min_eq_right (Nat.le_of_lt h)
      have h2 : min c (n + 1) = n + 1 := Nat.min_eq_right h
      simp [h1, h2, List.takeWhile_cons, h, List.range_succ]
    · have h1 : min c n = c := Nat.min_eq_left h
      have h2 : min c (n + 1) = c := Nat.min_eq_left (Nat.le_succ_of_le h)
      rcases Nat.eq_or_lt_of_le h with h3 | h3
      · simp [h1, h2, ← h3, List.takeWhile_cons, List.range_succ]
      · have hne : ¬ (List.range c).length = (List.range n).length := by
          simpa using Nat.ne_of_lt h3
        simp [h1, h2, hne]
        intro h4
        exact absurd h4 (Nat.ne_of_lt h3)

-- =============================================================================
-- STORE OBSERVATION LEMMAS
-- =============================================================================

theorem ambExists_iff (db : Database) (aid : String) :
    db.ambExists aid = true ↔ ∃ a, db.findAmb aid = some a := by
  unfold Database.ambExists Database.findAmb
  rw [List.any_eq_true]
  constructor
  · intro h
    have h2 : (db.ambulances.find? (fun a => a.ambulance_id == aid)).isSome = true :=
      List.find?_isSome.mpr h
    exact Option.isSome_iff_exists.mp h2
  · intro ⟨a, ha⟩
    exact List.find?_isSome.mp (by simp [ha])

/-- Lookup through an ambulance-table update, under any observation the row
transformer preserves. -/
theorem findAmb_map_updateAmb {β : Type} (db : Database) (p : Ambulance → Bool)
    (f : Ambulance → Ambulance) (g : Ambulance → β) (aid' : String)
    (hid : ∀ a, (f a).ambulance_id = a.ambulance_id)
    (hg : ∀ a, g (f a) = g a) :
    (({ db with ambulances := updateWhere db.ambulances p f } : Database).findAmb aid').map g
      = (db.findAmb aid').map g := by
  simp only [Database.findAmb]
  rw [find?_updateWhere _ p _ f (fun a => by simp [hid])]
  cases hfind : db.ambulances.find? (fun a => a.ambulance_id == aid') with
  | none => simp
  | some a => by_cases hp : p a <;> simp [hp, hg]

theorem ambExists_updateAmb (db : Database) (p : Ambulance → Bool)
    (f : Ambulance → Ambulance) (aid' : String)
    (hid : ∀ a, (f a).ambulance_id = a.ambulance_id) :
    ({ db with ambulances := updateWhere db.ambulances p f } : Database).ambExists aid'
      = db.ambExists aid' :=
  any_updateWhere _ _ _ _ (fun a => by simp [hid])

/-- Reading back the row targeted by a key-preserving ambulance update. -/
theorem findAmb_updateAmb_self (db : Database) (aid : String) (f : Ambulance → Ambulance)
    (hid : ∀ a, (f a).ambulance_id = a.ambulance_id) :
    ({ db with ambulances :=
        updateWhere db.ambulances (fun a => a.ambulance_id == aid) f } : Database).findAmb aid
      = (db.findAmb aid).map f := by
  simp only [Database.findAmb]
  rw [find?_updateWhere _ _ _ f (fun a => by simp [hid])]
  cases hfind : db.ambulances.find? (fun a => a.ambulance_id == aid) with
  | none => simp
  | some a =>
    have h3 : a.ambulance_id = aid := by simpa using List.find?_some hfind
    simp [h3]

/-- Patient lookup through a patient-table update, under any observation the
row transformer preserves. -/
theorem getPatient_map_updatePat {β : Type} (db : Database) (p : Patient → Bool)
    (f : Patient → Patient) (g : Patient → β) (pid' : String)
    (hid : ∀ q, (f q).patient_id = q.patient_id)
    (hg : ∀ q, g (f q) = g q) :
    (({ db with patients := updateWhere db.patients p f } : Database).get_patient_by_id pid').map g
      = (db.get_patient_by_id pid').map g := by
  simp only [Database.get_patient_by_id]
  rw [find?_updateWhere _ p _ f (fun q => by simp [hid])]
  cases hfind : db.patients.find? (fun q => q.patient_id == pid') with
  | none => simp
  | some q => by_cases hp : p q <;> simp [hp, hg]

/-- Reading back the row targeted by a key-preserving patient update. -/
theorem getPatient_updatePat_self (db : Database) (pid : String) (f : Patient → Patient)
    (hid : ∀ q, (f q).patient_id = q.patient_id) :
    ({ db with patients :=
        updateWhere db.patients (fun q => q.patient_id == pid) f } : Database).get_patient_by_id pid
      = (db.get_patient_by_id pid).map f := by
  simp only [Database.get_patient_by_id]
  rw [find?_updateWhere _ _ _ f (fun q => by simp [hid])]
  cases hfind : db.patients.find? (fun q => q.patient_id == pid) with
  | none => simp
  | some q =>
    have h3 : q.patient_id = pid := by simpa using List.find?_some hfind
    simp [h3]

/-- The cross-reference invariant survives an ambulance update whose
transformer re-establishes it on the rows it touches. -/
theorem linkInv_updateAmb (db : Database) (p : Ambulance → Bool) (f : Ambulance → Ambulance)
    (h : linkInv db) (hf : ∀ a ∈ db.ambulances, p a = true → linkInvA (f a)) :
    linkInv ({ db with ambulances := updateWhere db.ambulances p f } : Database) := by
  intro b hb
  rcases mem_updateWhere hb with ⟨a, ha, ⟨hp, hb'⟩ | ⟨hp, hb'⟩⟩
  · rw [hb']
    exact hf a ha hp
  · rw [hb']
    exact h a ha

/-- The hospital invariant survives a patient update whose transformer
preserves both hospital fields. -/
theorem hospInv_updatePat (db : Database) (p : Patient → Bool) (f : Patient → Patient)
    (h : hospInv db)
    (hf : ∀ q, (f q).referring_hospital = q.referring_hospital ∧
               (f q).receiving_hospital = q.receiving_hospital) :
    hospInv ({ db with patients := updateWhere db.patients p f } : Database) := by
  intro b hb
  rcases mem_updateWhere hb with ⟨q, hq, ⟨hp, hb'⟩ | ⟨hp, hb'⟩⟩
  · rw [hb']
    have h2 := h q hq
    unfold hospInvP at *
    rw [(hf q).1, (hf q).2]
    exact h2
  · rw [hb']
    exact h q hq

-- =============================================================================
-- SIMULATOR LEMMAS
-- =============================================================================

namespace LocationSimulator

section

variable (aid pid : String) (slat slng elat elng : ℚ)

theorem takeWhile_runningAt_none (l : List Nat) : l.takeWhile (runningAt none) = l := by
  induction l with
  | nil => rfl
  | cons a l ih => simp [List.takeWhile_cons, runningAt, ih]

theorem runningAt_some_eq (c : Nat) : runningAt (some c) = fun t => decide (t < c) := rfl

/-- The geometry-only row transformer used by a simulation write. -/
def geomUpd (lat lng : ℚ) (nm : String) : Ambulance → Ambulance := fun a =>
  { a with latitude := some lat, longitude := some lng, current_location := some nm }

/-- A simulation write on an existing ambulance: geometry update plus one
appended `LocationUpdate` row. -/
theorem stepWrite_eq_of_exists (db : Database) (k : Nat) (h : db.ambExists aid = true) :
    stepWrite aid pid slat slng elat elng db k
      = Database.add_location_update
          { db with ambulances := updateWhere db.ambulances (fun a => a.ambulance_id == aid) (geomUpd (sampleCoord slat elat k) (sampleCoord slng elng k) ("En route - Step " ++ toString k ++ "/" ++ toString steps)) }
          (sampleRec aid pid slat slng elat elng k) := by
  simp [stepWrite, AmbulanceService.update_ambulance_location, h, sampleRec]
  rfl

theorem stepWrite_eq_of_missing (db : Database) (k : Nat) (h : db.ambExists aid = false) :
    stepWrite aid pid slat slng elat elng db k = db := by
  simp [stepWrite, AmbulanceService.update_ambulance_location, h]

theorem stepWrite_patients (db : Database) (k : Nat) :
    (stepWrite aid pid slat slng elat elng db k).patients = db.patients := by
  cases h : db.ambExists aid
  · rw [stepWrite_eq_of_missing _ _ _ _ _ _ _ _ h]
  · rw [stepWrite_eq_of_exists _ _ _ _ _ _ _ _ h]
    rfl

theorem stepWrite_handover_forms (db : Database) (k : Nat) :
    (stepWrite aid pid slat slng elat elng db k).handover_forms = db.handover_forms := by
  cases h : db.ambExists aid
  · rw [stepWrite_eq_of_missing _ _ _ _ _ _ _ _ h]
  · rw [stepWrite_eq_of_exists _ _ _ _ _ _ _ _ h]
    rfl

theorem stepWrite_ambExists (db : Database) (k : Nat) (aid' : String) :
    (stepWrite aid pid slat slng elat elng db k).ambExists aid' = db.ambExists aid' := by
  cases h : db.ambExists aid
  · rw [stepWrite_eq_of_missing _ _ _ _ _ _ _ _ h]
  · rw [stepWrite_eq_of_exists _ _ _ _ _ _ _ _ h]
    show ((updateWhere db.ambulances _ _).any _) = _
    exact any_updateWhere _ _ _ _ (fun a => rfl)

/-- A simulation write changes only the geometry fields of the ambulance row:
any observation blind to them is preserved. -/
theorem stepWrite_findAmb_map {β : Type} (g : Ambulance → β)
    (hg : ∀ (a : Ambulance) (lat lng : ℚ) (nm : String), g (geomUpd lat lng nm a) = g a)
    (db : Database) (k : Nat) (aid' : String) :
    ((stepWrite aid pid slat slng elat elng db k).findAmb aid').map g
      = (db.findAmb aid').map g := by
  cases h : db.ambExists aid
  · rw [stepWrite_eq_of_missing _ _ _ _ _ _ _ _ h]
  · rw [stepWrite_eq_of_exists _ _ _ _ _ _ _ _ h]
    exact findAmb_map_updateAmb db _ _ g aid' (fun a => rfl) (fun a => hg a _ _ _)

theorem stepWrite_loc (db : Database) (k : Nat) (h : db.ambExists aid = true) :
    (stepWrite aid pid slat slng elat elng db k).location_updates
      = db.location_updates ++ [sampleRec aid pid slat slng elat elng k] := by
  rw [stepWrite_eq_of_exists _ _ _ _ _ _ _ _ h]
  rfl

theorem stepWrite_linkInv (db : Database) (k : Nat) (h : linkInv db) :
    linkInv (stepWrite aid pid slat slng elat elng db k) := by
  cases he : db.ambExists aid
  · rw [stepWrite_eq_of_missing _ _ _ _ _ _ _ _ he]
    exact h
  · rw [stepWrite_eq_of_exists _ _ _ _ _ _ _ _ he]
    have h2 : linkInv ({ db with ambulances := updateWhere db.ambulances (fun a => a.ambulance_id == aid) (geomUpd (sampleCoord slat elat k) (sampleCoord slng elng k) ("En route - Step " ++ toString k ++ "/" ++ toString steps)) } : Database) := by
      refine linkInv_updateAmb db _ _ h (fun a ha hp => ?_)
      have h3 := h a ha
      unfold linkInvA geomUpd at *
      simpa using h3
    exact h2

theorem foldl_stepWrite_patients (l : List Nat) (db : Database) :
    (l.foldl (stepWrite aid pid slat slng elat elng) db).patients = db.patients := by
  induction l generalizing db with
  | nil => rfl
  | cons k l ih => rw [List.foldl_cons, ih, stepWrite_patients]

theorem foldl_stepWrite_handover_forms (l : List Nat) (db : Database) :
    (l.foldl (stepWrite aid pid slat slng elat elng) db).handover_forms
      = db.handover_forms := by
  induction l generalizing db with
  | nil => rfl
  | cons k l ih => rw [List.foldl_cons, ih, stepWrite_handover_forms]

theorem foldl_stepWrite_ambExists (l : List Nat) (db : Database) (aid' : String) :
    (l.foldl (stepWrite aid pid slat slng elat elng) db).ambExists aid'
      = db.ambExists aid' := by
  induction l generalizing db with
  | nil => rfl
  | cons k l ih => rw [List.foldl_cons, ih, stepWrite_ambExists]

theorem foldl_stepWrite_findAmb_map {β : Type} (g : Ambulance → β)
    (hg : ∀ (a : Ambulance) (lat lng : ℚ) (nm : String), g (geomUpd lat lng nm a) = g a)
    (l : List Nat) (db : Database) (aid' : String) :
    ((l.foldl (stepWrite aid pid slat slng elat elng) db).findAmb aid').map g
      = (db.findAmb aid').map g := by
  induction l generalizing db with
  | nil => rfl
  | cons k l ih => rw [List.foldl_cons, ih, stepWrite_findAmb_map _ _ _ _ _ _ g hg]

theorem foldl_stepWrite_linkInv (l : List Nat) (db : Database) (h : linkInv db) :
    linkInv (l.foldl (stepWrite aid pid slat slng elat elng) db) := by
  induction l generalizing db with
  | nil => exact h
  | cons k l ih => exact ih _ (stepWrite_linkInv _ _ _ _ _ _ _ _ h)

theorem foldl_stepWrite_loc (l : List Nat) (db : Database)
    (h : db.ambExists aid = true) :
    (l.foldl (stepWrite aid pid slat slng elat elng) db).location_updates
      = db.location_updates ++ l.map (sampleRec aid pid slat slng elat elng) := by
  induction l generalizing db with
  | nil => simp
  | cons k l ih =>
    have h2 : (stepWrite aid pid slat slng elat elng db k).ambExists aid = true := by
      rw [stepWrite_ambExists]
      exact h
    rw [List.foldl_cons, ih _ h2, stepWrite_loc _ _ _ _ _ _ _ _ h, List.map_cons,
      List.append_assoc, List.singleton_append]

/-- The end-of-run release as a row transformer. -/
def releaseUpd : Ambulance → Ambulance := fun a =>
  { a with status := "Available", current_patient := none }

theorem markArrived_eq (db : Database) (a : String) :
    markArrived db a
      = { db with ambulances :=
            updateWhere db.ambulances (fun b => b.ambulance_id == a) releaseUpd } := rfl

theorem markArrived_patients (db : Database) (a : String) :
    (markArrived db a).patients = db.patients := rfl

theorem markArrived_handover_forms (db : Database) (a : String) :
    (markArrived db a).handover_forms = db.handover_forms := rfl

theorem markArrived_loc (db : Database) (a : String) :
    (markArrived db a).location_updates = db.location_updates := rfl

theorem markArrived_findAmb_self (db : Database) (a : String) :
    (markArrived db a).findAmb a = (db.findAmb a).map releaseUpd := by
  rw [markArrived_eq]
  exact findAmb_updateAmb_self db a releaseUpd (fun _ => rfl)

theorem markArrived_mission (db : Database) (a aid' : String) :
    ((markArrived db a).findAmb aid').map (fun b => b.mission_complete)
      = (db.findAmb aid').map (fun b => b.mission_complete) := by
  rw [markArrived_eq]
  exact findAmb_map_updateAmb db _ releaseUpd _ aid' (fun _ => rfl) (fun _ => rfl)

theorem markArrived_linkInv (db : Database) (a : String) (h : linkInv db) :
    linkInv (markArrived db a) := by
  rw [markArrived_eq]
  refine linkInv_updateAmb db _ _ h (fun b hb hp => ?_)
  unfold linkInvA releaseUpd
  simp

end

end LocationSimulator

namespace LocationSimulator

section

variable (aid pid : String) (slat slng elat elng : ℚ)

/-- An uncancelled run iterates all 21 steps and then performs the arrival
release. -/
theorem start_simulation_none_eq (db : Database) :
    start_simulation db aid pid slat slng elat elng none
      = markArrived
          ((List.range (steps + 1)).foldl (stepWrite aid pid slat slng elat elng) db)
          aid := by
  simp only [start_simulation, takeWhile_runningAt_none]
  rfl

/-- A run whose stop signal is observed at loop check `c ≤ steps` iterates
exactly the steps `0..c-1` and performs no arrival release. -/
theorem start_simulation_some_eq (db : Database) (c : Nat) (hc : c ≤ steps) :
    start_simulation db aid pid slat slng elat elng (some c)
      = (List.range c).foldl (stepWrite aid pid slat slng elat elng) db := by
  have h1 : (List.range (steps + 1)).takeWhile (runningAt (some c)) = List.range c := by
    rw [runningAt_some_eq, takeWhile_lt_range]
    congr 1
    omega
  have h2 : runningAt (some c) (steps + 1) = false := by
    simp only [runningAt, decide_eq_false_iff_not]
    omega
  simp only [start_simulation, h1, h2, Bool.false_eq_true, if_false]

theorem start_simulation_patients (db : Database) (cancel : Option Nat) :
    (start_simulation db aid pid slat slng elat elng cancel).patients = db.patients := by
  simp only [start_simulation]
  split
  · rw [markArrived_patients, foldl_stepWrite_patients]
  · rw [foldl_stepWrite_patients]

theorem start_simulation_linkInv (db : Database) (cancel : Option Nat) (h : linkInv db) :
    linkInv (start_simulation db aid pid slat slng elat elng cancel) := by
  simp only [start_simulation]
  split
  · exact markArrived_linkInv _ _ (foldl_stepWrite_linkInv _ _ _ _ _ _ _ _ h)
  · exact foldl_stepWrite_linkInv _ _ _ _ _ _ _ _ h

end

end LocationSimulator

-- =============================================================================
-- INTERPOLATION ARITHMETIC
-- =============================================================================

namespace LocationSimulator

theorem sampleCoord_zero (s e : ℚ) : sampleCoord s e 0 = s := by
  simp [sampleCoord]

theorem sampleCoord_last (s e : ℚ) : sampleCoord s e steps = e := by
  have h : ((steps : Nat) : ℚ) = 20 := by norm_num [steps]
  rw [sampleCoord, h]
  ring

/-- Every sample of the linear interpolation lies in the bounding box of the
endpoints. -/
theorem sampleCoord_bounds (s e : ℚ) (k : Nat) (hk : k ≤ steps) :
    min s e ≤ sampleCoord s e k ∧ sampleCoord s e k ≤ max s e := by
  have hsteps : ((steps : Nat) : ℚ) = 20 := by norm_num [steps]
  have hk20 : (k : ℚ) ≤ 20 := by
    have : (k : ℚ) ≤ ((steps : Nat) : ℚ) := by exact_mod_cast hk
    rw [hsteps] at this
    exact this
  have hk0 : (0 : ℚ) ≤ (k : ℚ) := Nat.cast_nonneg k
  rw [sampleCoord, hsteps]
  rcases le_total s e with h | h
  · rw [min_eq_left h, max_eq_right h]
    constructor
    · nlinarith [mul_nonneg (sub_nonneg.mpr h) hk0]
    · nlinarith [mul_nonneg (sub_nonneg.mpr h) (by linarith : (0:ℚ) ≤ 20 - (k:ℚ))]
  · rw [min_eq_right h, max_eq_left h]
    constructor
    · nlinarith [mul_nonneg (sub_nonneg.mpr h) (by linarith : (0:ℚ) ≤ 20 - (k:ℚ))]
    · nlinarith [mul_nonneg (sub_nonneg.mpr h) hk0]

end LocationSimulator

-- =============================================================================
-- CLAIM THEOREMS
-- =============================================================================

/-- C9: releasing an ambulance ("Mark Available") never touches the patients
table; and in the concrete scenario — create P1 (JOOTRH → Kisumu County
Referral Hospital) into a store holding available ambulance A1, assign A1 —
the store shows P1.status = "Ambulance Assigned", A1.status = "On Transfer",
A1.current_patient = P1; releasing A1 then yields A1.status = "Available"
and A1.current_patient = none with P1.status unchanged by the release. -/
theorem claim_C9 :
    (∀ (db : Database) (aid : String),
      (DriverUI.mark_available db aid).patients = db.patients) ∧
    Database.ambStatus exDbC9 "A1" = some "Available" ∧
    (Database.get_patient_by_id exDbC9b "P1").map Patient.status
      = some "Ambulance Assigned" ∧
    Database.ambStatus exDbC9b "A1" = some "On Transfer" ∧
    Database.ambPatient exDbC9b "A1" = some (some "P1") ∧
    Database.ambStatus exDbC9c "A1" = some "Available" ∧
    Database.ambPatient exDbC9c "A1" = some none ∧
    (Database.get_patient_by_id exDbC9c "P1").map Patient.status
      = some "Ambulance Assigned" := by
  refine ⟨fun db aid => rfl, ?_⟩
  decide

/-- C10: `Database.update_ambulance_status` called with `patient_id = none`
rewrites exactly the `status` field of the rows matching the ambulance ID,
leaving `current_patient` (and the patients table) at its prior value; and
for every `patient_id` argument the operation never clears a
`current_patient` that was set. -/
theorem claim_C10 (db : Database) (aid stt : String) :
    (db.update_ambulance_status aid stt none).ambulances
      = updateWhere db.ambulances (fun a => a.ambulance_id == aid)
          (fun a => { a with status := stt }) ∧
    (db.update_ambulance_status aid stt none).patients = db.patients ∧
    ∀ (pid : Option String),
      List.Forall₂ (fun a b => a.current_patient ≠ none → b.current_patient ≠ none)
        db.ambulances (db.update_ambulance_status aid stt pid).ambulances := by
  refine ⟨rfl, rfl, fun pid => ?_⟩
  show List.Forall₂ _ db.ambulances (updateWhere db.ambulances _ _)
  unfold updateWhere
  rw [List.forall₂_map_right_iff, List.forall₂_same]
  intro a _ hne
  by_cases hp : (a.ambulance_id == aid) = true
  · simp only [hp, if_true]
    by_cases ht : pyTruthy pid = true
    · cases pid with
      | none => simp [pyTruthy] at ht
      | some s => simp [ht]
    · simp only [Bool.not_eq_true] at ht
      simp [ht]
      exact hne
  · simp only [hp]
    simp
    exact hne

/-- C10 witness: the frame property evaluated on a concrete two-ambulance
store. -/
theorem claim_C10_witness :
    (exDbC10.update_ambulance_status "A2" "On Break" none).ambulances
      = updateWhere exDbC10.ambulances (fun a => a.ambulance_id == "A2")
          (fun a => { a with status := "On Break" }) ∧
    (exDbC10.update_ambulance_status "A2" "On Break" none).patients
      = exDbC10.patients ∧
    ∀ (pid : Option String),
      List.Forall₂ (fun a b => a.current_patient ≠ none → b.current_patient ≠ none)
        exDbC10.ambulances (exDbC10.update_ambulance_status "A2" "On Break" pid).ambulances :=
  claim_C10 exDbC10 "A2" "On Break"

/-- C1 (counterexample): on a store holding referred patient P1 and no
ambulance "A9", `assign_ambulance("P1", "A9")` reports success, commits the
patient-side update (status "Ambulance Assigned") and leaves the ambulance
table untouched — there is no ambulance row carrying the reciprocal
reference and no rollback of the patient-side commit, so the call neither
fully succeeds nor fully fails. -/
theorem claim_C1_counterexample :
    (ReferralService.assign_ambulance exDbC1 "P1" "A9").2 = true ∧
    (Database.get_patient_by_id (ReferralService.assign_ambulance exDbC1 "P1" "A9").1 "P1").map
        Patient.status = some "Ambulance Assigned" ∧
    (Database.get_patient_by_id exDbC1 "P1").map Patient.status = some "Referred" ∧
    (ReferralService.assign_ambulance exDbC1 "P1" "A9").1.ambulances = [] ∧
    Database.ambStatus (ReferralService.assign_ambulance exDbC1 "P1" "A9").1 "A9" = none := by
  decide

/-- C2 (counterexample): the store `exDbC2` satisfies the cross-reference
invariant (A1 is "On Transfer" with `current_patient` = P1), but the driver
quick action "Mark On Break" overwrites the status while leaving
`current_patient` set, breaking the equivalence. -/
theorem claim_C2_counterexample :
    linkInv exDbC2 ∧ ¬ linkInv (DriverUI.mark_on_break exDbC2 "A1") := by
  decide

/-- C3 (counterexample): starting from available ambulance A1 and referred
patients P1, P2, the first `assign_ambulance("P1","A1")` puts A1 "On
Transfer"; the second call `assign_ambulance("P2","A1")`, with no release in
between, still reports success and overwrites A1's `current_patient` with
P2, instead of failing with `AmbulanceUnavailableError` and leaving the
records unchanged. -/
theorem claim_C3_counterexample :
    Database.ambStatus (ReferralService.assign_ambulance exDbC3 "P1" "A1").1 "A1"
      = some "On Transfer" ∧
    (ReferralService.assign_ambulance
        (ReferralService.assign_ambulance exDbC3 "P1" "A1").1 "P2" "A1").2 = true ∧
    Database.ambPatient (ReferralService.assign_ambulance
        (ReferralService.assign_ambulance exDbC3 "P1" "A1").1 "P2" "A1").1 "A1"
      = some (some "P2") ∧
    (Database.get_patient_by_id (ReferralService.assign_ambulance
        (ReferralService.assign_ambulance exDbC3 "P1" "A1").1 "P2" "A1").1 "P2").map
        Patient.status = some "Ambulance Assigned" := by
  decide

/-- C5 (counterexample): in `exDbC5` the mission was already completed by
other means (`mission_complete = true`; the driver has since gone "On
Break"), yet an uncancelled simulation run reaching its last step still
performs the end-of-run release, forcing the status back to "Available" —
the double-release guard does not exist in `start_simulation`. -/
theorem claim_C5_counterexample :
    Database.ambMission exDbC5 "A1" = some true ∧
    Database.ambStatus exDbC5 "A1" = some "On Break" ∧
    Database.ambStatus (LocationSimulator.start_simulation exDbC5 "A1" "P1" 0 0 0 0 none) "A1"
      = some "Available" ∧
    Database.ambPatient (LocationSimulator.start_simulation exDbC5 "A1" "P1" 0 0 0 0 none) "A1"
      = some none := by
  decide

/-- C5 (amended): when an uncancelled simulation run reaches its last step it
unconditionally performs the end-of-run release — the ambulance's status is
set to "Available" and `current_patient` is cleared whatever their prior
values, and the `mission_complete` flag recording a manual completion is
neither consulted nor changed.  The simulator has no guard against releasing
an ambulance whose mission was already completed by other means. -/
theorem claim_C5 (db : Database) (aid pid : String) (slat slng elat elng : ℚ)
    (h : db.ambExists aid = true) :
    Database.ambStatus
        (LocationSimulator.start_simulation db aid pid slat slng elat elng none) aid
      = some "Available" ∧
    Database.ambPatient
        (LocationSimulator.start_simulation db aid pid slat slng elat elng none) aid
      = some none ∧
    Database.ambMission
        (LocationSimulator.start_simulation db aid pid slat slng elat elng none) aid
      = Database.ambMission db aid := by
  rw [LocationSimulator.start_simulation_none_eq]
  have hex : ((List.range (LocationSimulator.steps + 1)).foldl
      (LocationSimulator.stepWrite aid pid slat slng elat elng) db).ambExists aid = true := by
    rw [LocationSimulator.foldl_stepWrite_ambExists]
    exact h
  obtain ⟨a, ha⟩ := (ambExists_iff _ aid).mp hex
  refine ⟨?_, ?_, ?_⟩
  · unfold Database.ambStatus
    rw [LocationSimulator.markArrived_findAmb_self, ha]
    rfl
  · unfold Database.ambPatient
    rw [LocationSimulator.markArrived_findAmb_self, ha]
    rfl
  · unfold Database.ambMission
    rw [LocationSimulator.markArrived_mission]
    exact LocationSimulator.foldl_stepWrite_findAmb_map aid pid slat slng elat elng
      (fun b => b.mission_complete) (fun b _ _ _ => rfl) _ db aid

/-- C5 witness: the amended release behaviour evaluated on the concrete
already-completed store. -/
theorem claim_C5_witness :
    Database.ambStatus (LocationSimulator.start_simulation exDbC5 "A1" "P2" 1 2 3 4 none) "A1"
      = some "Available" ∧
    Database.ambPatient (LocationSimulator.start_simulation exDbC5 "A1" "P2" 1 2 3 4 none) "A1"
      = some none ∧
    Database.ambMission (LocationSimulator.start_simulation exDbC5 "A1" "P2" 1 2 3 4 none) "A1"
      = Database.ambMission exDbC5 "A1" :=
  claim_C5 exDbC5 "A1" "P2" 1 2 3 4 (by decide)

/-- C6: once the stop signal is observed at loop check `c ≤ 20`, the
simulation writes exactly the samples of steps `0..c-1` — every update
written before cancellation remains in the store and no further write
occurs — and it performs no end-of-run release: the ambulance's status and
`current_patient` are exactly what they were when the run started. -/
theorem claim_C6 (db : Database) (aid pid : String) (slat slng elat elng : ℚ) (c : Nat)
    (h : db.ambExists aid = true) (hc : c ≤ LocationSimulator.steps) :
    (LocationSimulator.start_simulation db aid pid slat slng elat elng (some c)).location_updates
      = db.location_updates
        ++ (List.range c).map (LocationSimulator.sampleRec aid pid slat slng elat elng) ∧
    Database.ambStatus
        (LocationSimulator.start_simulation db aid pid slat slng elat elng (some c)) aid
      = Database.ambStatus db aid ∧
    Database.ambPatient
        (LocationSimulator.start_simulation db aid pid slat slng elat elng (some c)) aid
      = Database.ambPatient db aid := by
  rw [LocationSimulator.start_simulation_some_eq _ _ _ _ _ _ _ c hc]
  refine ⟨?_, ?_, ?_⟩
  · exact LocationSimulator.foldl_stepWrite_loc aid pid slat slng elat elng _ db h
  · unfold Database.ambStatus
    exact LocationSimulator.foldl_stepWrite_findAmb_map aid pid slat slng elat elng
      (fun b => b.status) (fun b _ _ _ => rfl) _ db aid
  · unfold Database.ambPatient
    exact LocationSimulator.foldl_stepWrite_findAmb_map aid pid slat slng elat elng
      (fun b => b.current_patient) (fun b _ _ _ => rfl) _ db aid

/-- C6 witness: a run on the concrete mid-transfer store cancelled at check
3 keeps updates 0, 1, 2 and leaves the ambulance exactly "On Transfer" with
its patient. -/
theorem claim_C6_witness :
    (LocationSimulator.start_simulation exDbC6 "A1" "P1" 0 0 1 1 (some 3)).location_updates
      = exDbC6.location_updates
        ++ (List.range 3).map (LocationSimulator.sampleRec "A1" "P1" 0 0 1 1) ∧
    Database.ambStatus (LocationSimulator.start_simulation exDbC6 "A1" "P1" 0 0 1 1 (some 3)) "A1"
      = Database.ambStatus exDbC6 "A1" ∧
    Database.ambPatient (LocationSimulator.start_simulation exDbC6 "A1" "P1" 0 0 1 1 (some 3)) "A1"
      = Database.ambPatient exDbC6 "A1" :=
  claim_C6 exDbC6 "A1" "P1" 0 0 1 1 3 (by decide) (by decide)

/-- C4: with the hardcoded `steps = 20`, an uncancelled run on an existing
ambulance appends exactly the 21 samples of steps 0..20 to the location log,
where step `k` has coordinate `start + (end - start) / 20 * k` (in exact
arithmetic), sample 0 is the start, sample 20 is the end, every sample lies
in the bounding box of the endpoints, and the emitted sample sequence is a
deterministic function of the endpoints alone (the same for every starting
store). -/
theorem claim_C4 (db : Database) (aid pid : String) (slat slng elat elng : ℚ)
    (h : db.ambExists aid = true) :
    (LocationSimulator.start_simulation db aid pid slat slng elat elng none).location_updates
      = db.location_updates
        ++ (List.range (LocationSimulator.steps + 1)).map
            (LocationSimulator.sampleRec aid pid slat slng elat elng) ∧
    LocationSimulator.steps = 20 ∧
    (List.range (LocationSimulator.steps + 1)).length = 21 ∧
    (∀ k : Nat, LocationSimulator.sampleCoord slat elat k
        = slat + (elat - slat) / 20 * (k : ℚ)) ∧
    LocationSimulator.sampleCoord slat elat 0 = slat ∧
    LocationSimulator.sampleCoord slng elng 0 = slng ∧
    LocationSimulator.sampleCoord slat elat 20 = elat ∧
    LocationSimulator.sampleCoord slng elng 20 = elng ∧
    (∀ k : Nat, k ≤ 20 →
      (min slat elat ≤ LocationSimulator.sampleCoord slat elat k ∧
        LocationSimulator.sampleCoord slat elat k ≤ max slat elat) ∧
      (min slng elng ≤ LocationSimulator.sampleCoord slng elng k ∧
        LocationSimulator.sampleCoord slng elng k ≤ max slng elng)) ∧
    (∀ db' : Database, db'.ambExists aid = true →
      (LocationSimulator.start_simulation db' aid pid slat slng elat elng none).location_updates.drop
          db'.location_updates.length
        = (LocationSimulator.start_simulation db aid pid slat slng elat elng none).location_updates.drop
            db.location_updates.length) := by
  have trace : ∀ d : Database, d.ambExists aid = true →
      (LocationSimulator.start_simulation d aid pid slat slng elat elng none).location_updates
        = d.location_updates
          ++ (List.range (LocationSimulator.steps + 1)).map
              (LocationSimulator.sampleRec aid pid slat slng elat elng) := by
    intro d hd
    rw [LocationSimulator.start_simulation_none_eq, LocationSimulator.markArrived_loc]
    exact LocationSimulator.foldl_stepWrite_loc aid pid slat slng elat elng _ d hd
  refine ⟨trace db h, rfl, rfl, ?_, ?_, ?_, ?_, ?_, ?_, ?_⟩
  · intro k
    rw [LocationSimulator.sampleCoord]
    norm_num [LocationSimulator.steps]
  · exact LocationSimulator.sampleCoord_zero slat elat
  · exact LocationSimulator.sampleCoord_zero slng elng
  · exact LocationSimulator.sampleCoord_last slat elat
  · exact LocationSimulator.sampleCoord_last slng elng
  · intro k hk
    exact ⟨LocationSimulator.sampleCoord_bounds slat elat k hk,
      LocationSimulator.sampleCoord_bounds slng elng k hk⟩
  · intro db' h'
    rw [trace db h, trace db' h', List.drop_left, List.drop_left]

/-- C4 witness: the interpolation contract evaluated on the spec's route,
start (-0.0754, 34.7695) to end (-0.1743, 34.9169). -/
theorem claim_C4_witness :
    (LocationSimulator.start_simulation exDbC4 "A1" "P1"
        (-0.0754) 34.7695 (-0.1743) 34.9169 none).location_updates
      = exDbC4.location_updates
        ++ (List.range (LocationSimulator.steps + 1)).map
            (LocationSimulator.sampleRec "A1" "P1" (-0.0754) 34.7695 (-0.1743) 34.9169) ∧
    LocationSimulator.sampleCoord (-0.0754) (-0.1743) 0 = -0.0754 ∧
    LocationSimulator.sampleCoord (-0.0754) (-0.1743) 20 = -0.1743 ∧
    LocationSimulator.sampleCoord 34.7695 34.9169 20 = 34.9169 :=
  have hc := claim_C4 exDbC4 "A1" "P1" (-0.0754) 34.7695 (-0.1743) 34.9169 (by decide)
  ⟨hc.1, hc.2.2.2.2.1, hc.2.2.2.2.2.2.1, hc.2.2.2.2.2.2.2.1⟩

/-- C7: completing a handover requires the selected patient to have status
"Arrived at Destination" (only such patients appear in the submit form's
eligible list): on submit with a named physician it appends exactly one
`handover_data` snapshot and sets the patient's status to "Completed"; for a
patient in any other status — or an unknown patient — the operation is
refused with the not-eligible error and returns no modified store, so the
patient record is unchanged and no `HandoverForm` is created. -/
theorem claim_C7 (db : Database) (uh : Option String) (pid : String) (v : Vitals)
    (phys notes role : String) :
    (∀ p : Patient, db.get_patient_by_id pid = some p →
      p.status = "Arrived at Destination" →
      (uh = none ∨ uh = some p.receiving_hospital) → phys ≠ "" →
      ∃ db' : Database,
        HandoverUI.create_handover_form db uh pid v phys notes role = .ok db' ∧
        db'.handover_forms
          = db.handover_forms ++ [HandoverUI.handover_data p v phys notes role] ∧
        (db'.get_patient_by_id pid).map Patient.status = some "Completed") ∧
    (∀ p : Patient, db.get_patient_by_id pid = some p →
      p.status ≠ "Arrived at Destination" →
      HandoverUI.create_handover_form db uh pid v phys notes role
        = .error .notEligible) ∧
    (db.get_patient_by_id pid = none →
      HandoverUI.create_handover_form db uh pid v phys notes role
        = .error .notEligible) := by
  refine ⟨?_, ?_, ?_⟩
  · intro p hp hst hscope hphys
    have hemp : phys.isEmpty = false := by
      cases he : phys.isEmpty
      · rfl
      · exact absurd ((String.isEmpty_iff phys).mp he) hphys
    have hphys' : pyTruthyS phys = true := by
      simp [pyTruthyS, hemp]
    refine ⟨{ db.add_handover_form (HandoverUI.handover_data p v phys notes role) with patients := updateWhere (db.add_handover_form (HandoverUI.handover_data p v phys notes role)).patients (fun q => q.patient_id == pid) (fun q => { q with status := "Completed", receiving_physician := some phys }) }, ?_, ?_, ?_⟩
    · rcases hscope with rfl | rfl <;>
        simp [HandoverUI.create_handover_form, hp, hst, hphys']
    · rfl
    · have hself := getPatient_updatePat_self
        (db.add_handover_form (HandoverUI.handover_data p v phys notes role)) pid
        (fun q => { q with status := "Completed", receiving_physician := some phys })
        (fun q => rfl)
      rw [hself]
      have hp1 : (db.add_handover_form
          (HandoverUI.handover_data p v phys notes role)).get_patient_by_id pid
          = some p := hp
      rw [hp1]
      rfl
  · intro p hp hst
    have h1 : (p.status == "Arrived at Destination") = false := by
      simp [hst]
    simp [HandoverUI.create_handover_form, hp, h1]
  · intro hp
    simp only [HandoverUI.create_handover_form, hp]

/-- C7 witness: the handover contract evaluated on the concrete arrived
patient. -/
theorem claim_C7_witness :
    ∃ db' : Database,
      HandoverUI.create_handover_form exDbC7 none "P1" exVitals "Dr. B" "stable" "Hospital Staff"
        = .ok db' ∧
      db'.handover_forms
        = exDbC7.handover_forms
          ++ [HandoverUI.handover_data { exPatient "P1" with status := "Arrived at Destination", assigned_ambulance := some "A1" } exVitals "Dr. B" "stable" "Hospital Staff"] ∧
      (db'.get_patient_by_id "P1").map Patient.status = some "Completed" :=
  (claim_C7 exDbC7 none "P1" exVitals "Dr. B" "stable" "Hospital Staff").1
    { exPatient "P1" with status := "Arrived at Destination", assigned_ambulance := some "A1" }
    (by decide) (by decide) (Or.inl rfl) (by decide)

-- =============================================================================
-- ASSIGNMENT CHARACTERIZATION
-- =============================================================================

theorem assign_ambulance_of_missing_patient (db : Database) (pid aid : String)
    (hn : db.get_patient_by_id pid = none) :
    ReferralService.assign_ambulance db pid aid = (db, false) := by
  simp [ReferralService.assign_ambulance, hn]

/-- The patient-side transformer committed by `assign_ambulance`. -/
theorem assign_ambulance_eq_of_found (db : Database) (pid aid : String) (p : Patient)
    (hp : db.get_patient_by_id pid = some p) :
    ReferralService.assign_ambulance db pid aid
      = (Database.update_ambulance_status
          { db with patients := updateWhere db.patients (fun q => q.patient_id == pid) (fun q => { q with assigned_ambulance := some aid, status := "Ambulance Assigned" }) }
          aid "On Transfer" (some pid), true) := by
  simp only [ReferralService.assign_ambulance, hp]

theorem assign_ambulance_found (db : Database) (pid aid : String) (p : Patient)
    (hp : db.get_patient_by_id pid = some p) (hpid : pid ≠ "")
    (hex : db.ambExists aid = true) :
    (ReferralService.assign_ambulance db pid aid).2 = true ∧
    Database.ambStatus (ReferralService.assign_ambulance db pid aid).1 aid
      = some "On Transfer" ∧
    Database.ambPatient (ReferralService.assign_ambulance db pid aid).1 aid
      = some (some pid) ∧
    (Database.get_patient_by_id (ReferralService.assign_ambulance db pid aid).1 pid).map
        Patient.status = some "Ambulance Assigned" ∧
    (Database.get_patient_by_id (ReferralService.assign_ambulance db pid aid).1 pid).map
        Patient.assigned_ambulance = some (some aid) := by
  have hemp : pid.isEmpty = false := by
    cases he : pid.isEmpty
    · rfl
    · exact absurd ((String.isEmpty_iff pid).mp he) hpid
  have htr : pyTruthy (some pid) = true := by simp [pyTruthy, hemp]
  rw [assign_ambulance_eq_of_found db pid aid p hp]
  obtain ⟨a, ha⟩ := (ambExists_iff db aid).mp hex
  have hamb := findAmb_updateAmb_self
    ({ db with patients := updateWhere db.patients (fun q => q.patient_id == pid) (fun q => { q with assigned_ambulance := some aid, status := "Ambulance Assigned" }) }) aid
    (fun b => { b with status := "On Transfer", current_patient := if pyTruthy (some pid) then some pid else b.current_patient })
    (fun b => rfl)
  have hpat := getPatient_updatePat_self db pid
    (fun q => { q with assigned_ambulance := some aid, status := "Ambulance Assigned" })
    (fun q => rfl)
  refine ⟨rfl, ?_, ?_, ?_, ?_⟩
  · unfold Database.ambStatus
    rw [show (Database.update_ambulance_status { db with patients := updateWhere db.patients (fun q => q.patient_id == pid) (fun q => { q with assigned_ambulance := some aid, status := "Ambulance Assigned" }) } aid "On Transfer" (some pid), true).1.findAmb aid = (db.findAmb aid).map (fun b => { b with status := "On Transfer", current_patient := if pyTruthy (some pid) then some pid else b.current_patient }) from hamb, ha]
    rfl
  · unfold Database.ambPatient
    rw [show (Database.update_ambulance_status { db with patients := updateWhere db.patients (fun q => q.patient_id == pid) (fun q => { q with assigned_ambulance := some aid, status := "Ambulance Assigned" }) } aid "On Transfer" (some pid), true).1.findAmb aid = (db.findAmb aid).map (fun b => { b with status := "On Transfer", current_patient := if pyTruthy (some pid) then some pid else b.current_patient }) from hamb, ha]
    simp [htr]
  · rw [show (Database.update_ambulance_status { db with patients := updateWhere db.patients (fun q => q.patient_id == pid) (fun q => { q with assigned_ambulance := some aid, status := "Ambulance Assigned" }) } aid "On Transfer" (some pid), true).1.get_patient_by_id pid = (db.get_patient_by_id pid).map (fun q => { q with assigned_ambulance := some aid, status := "Ambulance Assigned" }) from hpat, hp]
    rfl
  · rw [show (Database.update_ambulance_status { db with patients := updateWhere db.patients (fun q => q.patient_id == pid) (fun q => { q with assigned_ambulance := some aid, status := "Ambulance Assigned" }) } aid "On Transfer" (some pid), true).1.get_patient_by_id pid = (db.get_patient_by_id pid).map (fun q => { q with assigned_ambulance := some aid, status := "Ambulance Assigned" }) from hpat, hp]
    rfl

theorem assign_ambulance_no_amb (db : Database) (pid aid : String) (p : Patient)
    (hp : db.get_patient_by_id pid = some p) (hex : db.ambExists aid = false) :
    (ReferralService.assign_ambulance db pid aid).2 = true ∧
    (ReferralService.assign_ambulance db pid aid).1.ambulances = db.ambulances ∧
    (Database.get_patient_by_id (ReferralService.assign_ambulance db pid aid).1 pid).map
        Patient.status = some "Ambulance Assigned" := by
  rw [assign_ambulance_eq_of_found db pid aid p hp]
  have hpat := getPatient_updatePat_self db pid
    (fun q => { q with assigned_ambulance := some aid, status := "Ambulance Assigned" })
    (fun q => rfl)
  refine ⟨rfl, ?_, ?_⟩
  · show updateWhere db.ambulances _ _ = db.ambulances
    exact updateWhere_eq_self _ _ _ hex
  · rw [show (Database.update_ambulance_status { db with patients := updateWhere db.patients (fun q => q.patient_id == pid) (fun q => { q with assigned_ambulance := some aid, status := "Ambulance Assigned" }) } aid "On Transfer" (some pid), true).1.get_patient_by_id pid = (db.get_patient_by_id pid).map (fun q => { q with assigned_ambulance := some aid, status := "Ambulance Assigned" }) from hpat, hp]
    rfl

theorem assign_ambulance_ambExists (db : Database) (pid aid aid' : String) :
    (ReferralService.assign_ambulance db pid aid).1.ambExists aid'
      = db.ambExists aid' := by
  cases hfind : db.get_patient_by_id pid with
  | none => rw [assign_ambulance_of_missing_patient db pid aid hfind]
  | some p =>
    rw [assign_ambulance_eq_of_found db pid aid p hfind]
    show (updateWhere db.ambulances _ _).any _ = _
    exact any_updateWhere _ _ _ _ (fun b => rfl)

theorem assign_ambulance_getPatient_isSome (db : Database) (pid aid pid' : String) :
    ((ReferralService.assign_ambulance db pid aid).1.get_patient_by_id pid').isSome
      = (db.get_patient_by_id pid').isSome := by
  cases hfind : db.get_patient_by_id pid with
  | none => rw [assign_ambulance_of_missing_patient db pid aid hfind]
  | some p =>
    rw [assign_ambulance_eq_of_found db pid aid p hfind]
    show ((updateWhere db.patients _ _).find? _).isSome = _
    rw [find?_updateWhere]
    · exact Option.isSome_map
    · exact fun q => rfl

/-- C1 (amended): `assign_ambulance` has three behaviours.  If the patient is
unknown it fails and changes nothing.  If the patient and the ambulance both
exist it reports success and updates both records consistently (patient
status "Ambulance Assigned" with `assigned_ambulance` set; ambulance
"On Transfer" with `current_patient` set).  But if the patient exists and
the ambulance does not, it still reports success and the committed
patient-side update is kept while the ambulance table is untouched — the
rollback required by the claim does not exist, so the operation is not
atomic. -/
theorem claim_C1 (db : Database) (pid aid : String) :
    (db.get_patient_by_id pid = none →
      ReferralService.assign_ambulance db pid aid = (db, false)) ∧
    (∀ p : Patient, db.get_patient_by_id pid = some p → pid ≠ "" →
      db.ambExists aid = true →
      ((ReferralService.assign_ambulance db pid aid).2 = true ∧
       Database.ambStatus (ReferralService.assign_ambulance db pid aid).1 aid
         = some "On Transfer" ∧
       Database.ambPatient (ReferralService.assign_ambulance db pid aid).1 aid
         = some (some pid) ∧
       (Database.get_patient_by_id (ReferralService.assign_ambulance db pid aid).1 pid).map
           Patient.status = some "Ambulance Assigned" ∧
       (Database.get_patient_by_id (ReferralService.assign_ambulance db pid aid).1 pid).map
           Patient.assigned_ambulance = some (some aid))) ∧
    (∀ p : Patient, db.get_patient_by_id pid = some p →
      db.ambExists aid = false →
      ((ReferralService.assign_ambulance db pid aid).2 = true ∧
       (ReferralService.assign_ambulance db pid aid).1.ambulances = db.ambulances ∧
       (Database.get_patient_by_id (ReferralService.assign_ambulance db pid aid).1 pid).map
           Patient.status = some "Ambulance Assigned")) :=
  ⟨fun hn => assign_ambulance_of_missing_patient db pid aid hn,
   fun p hp hpid hex => assign_ambulance_found db pid aid p hp hpid hex,
   fun p hp hex => assign_ambulance_no_amb db pid aid p hp hex⟩

/-- C1 witness: the both-exist branch evaluated on the concrete store with
patient P1 and available ambulance A1. -/
theorem claim_C1_witness :
    (ReferralService.assign_ambulance exDbC1w "P1" "A1").2 = true ∧
    Database.ambStatus (ReferralService.assign_ambulance exDbC1w "P1" "A1").1 "A1"
      = some "On Transfer" ∧
    Database.ambPatient (ReferralService.assign_ambulance exDbC1w "P1" "A1").1 "A1"
      = some (some "P1") ∧
    (Database.get_patient_by_id (ReferralService.assign_ambulance exDbC1w "P1" "A1").1 "P1").map
        Patient.status = some "Ambulance Assigned" ∧
    (Database.get_patient_by_id (ReferralService.assign_ambulance exDbC1w "P1" "A1").1 "P1").map
        Patient.assigned_ambulance = some (some "A1") :=
  (claim_C1 exDbC1w "P1" "A1").2.1 (exPatient "P1") (by decide) (by decide) (by decide)

/-- C3 (amended): the service-level assign performs no availability check and
raises no `AmbulanceUnavailableError` (no such error exists in the code):
after a first `assign_ambulance` has put the ambulance "On Transfer", a
second call for another patient — with no release in between — again reports
success, sets the second patient's record, and overwrites the ambulance's
`current_patient` with the second patient.  Only the assignment UI narrows
the selectable list to ambulances whose stored status is "Available". -/
theorem claim_C3 (db : Database) (p1 p2 aid : String) (q1 q2 : Patient)
    (hp1 : db.get_patient_by_id p1 = some q1)
    (hp2 : db.get_patient_by_id p2 = some q2)
    (hne2 : p2 ≠ "") (hex : db.ambExists aid = true) :
    (ReferralService.assign_ambulance
        (ReferralService.assign_ambulance db p1 aid).1 p2 aid).2 = true ∧
    Database.ambStatus (ReferralService.assign_ambulance
        (ReferralService.assign_ambulance db p1 aid).1 p2 aid).1 aid
      = some "On Transfer" ∧
    Database.ambPatient (ReferralService.assign_ambulance
        (ReferralService.assign_ambulance db p1 aid).1 p2 aid).1 aid
      = some (some p2) ∧
    (Database.get_patient_by_id (ReferralService.assign_ambulance
        (ReferralService.assign_ambulance db p1 aid).1 p2 aid).1 p2).map
        Patient.status = some "Ambulance Assigned" := by
  have hex1 : (ReferralService.assign_ambulance db p1 aid).1.ambExists aid = true := by
    rw [assign_ambulance_ambExists]
    exact hex
  have hsome : ((ReferralService.assign_ambulance db p1 aid).1.get_patient_by_id p2).isSome
      = true := by
    rw [assign_ambulance_getPatient_isSome, hp2]
    rfl
  obtain ⟨q2', hq2'⟩ := Option.isSome_iff_exists.mp hsome
  have h := assign_ambulance_found (ReferralService.assign_ambulance db p1 aid).1
    p2 aid q2' hq2' hne2 hex1
  exact ⟨h.1, h.2.1, h.2.2.1, h.2.2.2.1⟩

/-- C3 witness: the double-dispatch behaviour evaluated on the concrete
store with patients P1, P2 and single ambulance A1. -/
theorem claim_C3_witness :
    (ReferralService.assign_ambulance
        (ReferralService.assign_ambulance exDbC3 "P1" "A1").1 "P2" "A1").2 = true ∧
    Database.ambStatus (ReferralService.assign_ambulance
        (ReferralService.assign_ambulance exDbC3 "P1" "A1").1 "P2" "A1").1 "A1"
      = some "On Transfer" ∧
    Database.ambPatient (ReferralService.assign_ambulance
        (ReferralService.assign_ambulance exDbC3 "P1" "A1").1 "P2" "A1").1 "A1"
      = some (some "P2") ∧
    (Database.get_patient_by_id (ReferralService.assign_ambulance
        (ReferralService.assign_ambulance exDbC3 "P1" "A1").1 "P2" "A1").1 "P2").map
        Patient.status = some "Ambulance Assigned" :=
  claim_C3 exDbC3 "P1" "P2" "A1" (exPatient "P1") (exPatient "P2")
    (by decide) (by decide) (by decide) (by decide)

-- =============================================================================
-- CROSS-REFERENCE INVARIANT PRESERVATION
-- =============================================================================

theorem linkInv_assign (db : Database) (pid aid : String) (hpid : pid ≠ "")
    (h : linkInv db) : linkInv (ReferralService.assign_ambulance db pid aid).1 := by
  cases hfind : db.get_patient_by_id pid with
  | none =>
    rw [assign_ambulance_of_missing_patient db pid aid hfind]
    exact h
  | some p =>
    rw [assign_ambulance_eq_of_found db pid aid p hfind]
    have hemp : pid.isEmpty = false := by
      cases he : pid.isEmpty
      · rfl
      · exact absurd ((String.isEmpty_iff pid).mp he) hpid
    refine linkInv_updateAmb db _ _ h (fun a _ _ => ?_)
    unfold linkInvA
    simp [pyTruthy, hemp]

theorem linkInv_accept (db : Database) (aid pid : String) (h : linkInv db) :
    linkInv (DriverUI.accept_mission db aid pid) := by
  refine linkInv_updateAmb db _ _ h (fun a _ _ => ?_)
  unfold linkInvA
  simp

theorem linkInv_complete (db : Database) (aid pid : String) (h : linkInv db) :
    linkInv (DriverUI.complete_mission db aid pid) := by
  unfold DriverUI.complete_mission
  cases hfind : db.get_patient_by_id pid with
  | none => exact h
  | some p =>
    refine linkInv_updateAmb db _ _ h (fun a _ _ => ?_)
    unfold linkInvA
    simp

theorem linkInv_mark_available (db : Database) (aid : String) (h : linkInv db) :
    linkInv (DriverUI.mark_available db aid) := by
  refine linkInv_updateAmb db _ _ h (fun a _ _ => ?_)
  unfold linkInvA
  simp

theorem linkInv_update_loc (db : Database) (aid : String) (lat lng : ℚ) (nm : String)
    (pid : Option String) (h : linkInv db) :
    linkInv (AmbulanceService.update_ambulance_location db aid lat lng nm pid).1 := by
  by_cases he : db.ambExists aid
  · have heq : (AmbulanceService.update_ambulance_location db aid lat lng nm pid).1
        = Database.add_location_update
            { db with ambulances := updateWhere db.ambulances (fun a => a.ambulance_id == aid) (fun a => { a with latitude := some lat, longitude := some lng, current_location := some nm }) }
            { ambulance_id := aid, latitude := lat, longitude := lng, location_name := nm, patient_id := pid } := by
      simp [AmbulanceService.update_ambulance_location, he]
    rw [heq]
    refine linkInv_updateAmb db _ _ h (fun a ha _ => ?_)
    have h2 := h a ha
    unfold linkInvA at *
    simpa using h2
  · have heq : (AmbulanceService.update_ambulance_location db aid lat lng nm pid).1 = db := by
      simp [AmbulanceService.update_ambulance_location, he]
    rw [heq]
    exact h

/-- C2 (amended): the equivalence `current_patient ≠ none ⇔ status = "On
Transfer"` is preserved by assignment (with a nonempty patient ID), mission
acceptance, mission completion, release ("Mark Available"), location writes,
and every simulator run — but not by the quick actions "Mark On Break" and
"Maintenance", which overwrite the status while leaving `current_patient`
in place (see the counterexample), so the invariant does not hold after
every operation as claimed. -/
theorem claim_C2 (db : Database) (h : linkInv db) :
    (∀ pid aid : String, pid ≠ "" →
      linkInv (ReferralService.assign_ambulance db pid aid).1) ∧
    (∀ aid pid : String, linkInv (DriverUI.accept_mission db aid pid)) ∧
    (∀ aid pid : String, linkInv (DriverUI.complete_mission db aid pid)) ∧
    (∀ aid : String, linkInv (DriverUI.mark_available db aid)) ∧
    (∀ (aid : String) (lat lng : ℚ) (nm : String) (pid : Option String),
      linkInv (AmbulanceService.update_ambulance_location db aid lat lng nm pid).1) ∧
    (∀ (aid pid : String) (slat slng elat elng : ℚ) (cancel : Option Nat),
      linkInv (LocationSimulator.start_simulation db aid pid slat slng elat elng cancel)) :=
  ⟨fun pid aid hpid => linkInv_assign db pid aid hpid h,
   fun aid pid => linkInv_accept db aid pid h,
   fun aid pid => linkInv_complete db aid pid h,
   fun aid => linkInv_mark_available db aid h,
   fun aid lat lng nm pid => linkInv_update_loc db aid lat lng nm pid h,
   fun aid pid slat slng elat elng cancel =>
     LocationSimulator.start_simulation_linkInv aid pid slat slng elat elng db cancel h⟩

/-- C2 witness: the preserved operations evaluated on the concrete
mid-transfer store (whose invariant holds). -/
theorem claim_C2_witness :
    linkInv (ReferralService.assign_ambulance exDbC2 "P1" "A1").1 ∧
    linkInv (DriverUI.mark_available exDbC2 "A1") ∧
    linkInv (DriverUI.complete_mission exDbC2 "A1" "P1") :=
  ⟨(claim_C2 exDbC2 (by decide)).1 "P1" "A1" (by decide),
   (claim_C2 exDbC2 (by decide)).2.2.2.1 "A1",
   (claim_C2 exDbC2 (by decide)).2.2.1 "A1" "P1"⟩

-- =============================================================================
-- HOSPITAL-DISTINCTNESS INVARIANT PRESERVATION
-- =============================================================================

theorem update_ambulance_location_patients (db : Database) (aid : String)
    (lat lng : ℚ) (nm : String) (pid : Option String) :
    (AmbulanceService.update_ambulance_location db aid lat lng nm pid).1.patients
      = db.patients := by
  by_cases h : db.ambExists aid <;>
    simp [AmbulanceService.update_ambulance_location, h, Database.add_location_update]

theorem hospInv_assign (db : Database) (pid aid : String) (h : hospInv db) :
    hospInv (ReferralService.assign_ambulance db pid aid).1 := by
  cases hfind : db.get_patient_by_id pid with
  | none =>
    rw [assign_ambulance_of_missing_patient db pid aid hfind]
    exact h
  | some p =>
    rw [assign_ambulance_eq_of_found db pid aid p hfind]
    exact hospInv_updatePat db _ _ h (fun q => ⟨rfl, rfl⟩)

theorem hospInv_accept (db : Database) (aid pid : String) (h : hospInv db) :
    hospInv (DriverUI.accept_mission db aid pid) :=
  hospInv_updatePat db _ _ h (fun q => ⟨rfl, rfl⟩)

theorem hospInv_complete (db : Database) (aid pid : String) (h : hospInv db) :
    hospInv (DriverUI.complete_mission db aid pid) := by
  unfold DriverUI.complete_mission
  cases hfind : db.get_patient_by_id pid with
  | none => exact h
  | some p => exact hospInv_updatePat db _ _ h (fun q => ⟨rfl, rfl⟩)

theorem hospInv_update_status (db : Database) (pid stt : String) (h : hospInv db) :
    hospInv (ReferralUI.update_patient_status db pid stt) :=
  hospInv_updatePat db _ _ h (fun q => ⟨rfl, rfl⟩)

theorem hospInv_handover (db : Database) (uh : Option String) (pid : String)
    (v : Vitals) (phys nts rl : String) (db' : Database) (h : hospInv db)
    (hok : HandoverUI.create_handover_form db uh pid v phys nts rl = .ok db') :
    hospInv db' := by
  cases hfind : db.get_patient_by_id pid with
  | none =>
    simp only [HandoverUI.create_handover_form, hfind] at hok
    exact absurd hok (by simp)
  | some p =>
    simp only [HandoverUI.create_handover_form, hfind] at hok
    cases uh with
    | none =>
      split at hok
      · exact absurd hok (by simp)
      · split at hok
        · exact absurd hok (by simp)
        · have hx := Except.ok.inj hok
          rw [← hx]
          exact hospInv_updatePat db _ _ h (fun q => ⟨rfl, rfl⟩)
    | some hh =>
      split at hok
      · exact absurd hok (by simp)
      · split at hok
        · exact absurd hok (by simp)
        · have hx := Except.ok.inj hok
          rw [← hx]
          exact hospInv_updatePat db _ _ h (fun q => ⟨rfl, rfl⟩)

theorem hospInv_mark_available (db : Database) (aid : String) (h : hospInv db) :
    hospInv (DriverUI.mark_available db aid) := h

theorem hospInv_mark_on_break (db : Database) (aid : String) (h : hospInv db) :
    hospInv (DriverUI.mark_on_break db aid) := h

theorem hospInv_mark_maintenance (db : Database) (aid : String) (h : hospInv db) :
    hospInv (DriverUI.mark_maintenance db aid) := h

theorem hospInv_update_loc (db : Database) (aid : String) (lat lng : ℚ) (nm : String)
    (pid : Option String) (h : hospInv db) :
    hospInv (AmbulanceService.update_ambulance_location db aid lat lng nm pid).1 := by
  unfold hospInv
  rw [update_ambulance_location_patients]
  exact h

theorem hospInv_sim (db : Database) (aid pid : String) (slat slng elat elng : ℚ)
    (cancel : Option Nat) (h : hospInv db) :
    hospInv (LocationSimulator.start_simulation db aid pid slat slng elat elng cancel) := by
  unfold hospInv
  rw [LocationSimulator.start_simulation_patients]
  exact h

/-- C8: the referral form refuses a submission whose two hospitals coincide,
and one with any mandatory field missing (Python truthiness: an empty string
or age 0), creating no patient either way; a successful creation adds exactly
one patient whose hospitals differ and whose status is "Referred"; and the
hospital-distinctness invariant of the store is preserved by creation and by
every subsequent operation (assignment, mission accept/complete, status
update, handover, quick status actions, location writes, and simulator
runs). -/
theorem claim_C8 :
    (∀ (db : Database) (fid : String) (coords : String → ℚ × ℚ)
        (inp : ReferralUI.ReferralInput) (role : String),
      inp.referring_hospital = inp.receiving_hospital →
      ∃ e : UIError,
        ReferralUI.create_referral_form db fid coords inp role = .error e) ∧
    (∀ (db : Database) (fid : String) (coords : String → ℚ × ℚ)
        (inp : ReferralUI.ReferralInput) (role : String),
      (inp.name = "" ∨ inp.age = 0 ∨ inp.condition = "" ∨
       inp.referring_physician = "" ∨ inp.referring_hospital = "" ∨
       inp.receiving_hospital = "") →
      ReferralUI.create_referral_form db fid coords inp role
        = .error .missingFields) ∧
    (∀ (db : Database) (fid : String) (coords : String → ℚ × ℚ)
        (inp : ReferralUI.ReferralInput) (role : String),
      hospInv db →
      (pyTruthyS inp.name && (inp.age != 0) && pyTruthyS inp.condition &&
       pyTruthyS inp.referring_physician && pyTruthyS inp.referring_hospital &&
       pyTruthyS inp.receiving_hospital) = true →
      inp.referring_hospital ≠ inp.receiving_hospital →
      ∃ (db' : Database) (pat : Patient),
        ReferralUI.create_referral_form db fid coords inp role = .ok (db', pat) ∧
        db'.patients = db.patients ++ [pat] ∧
        pat.referring_hospital ≠ pat.receiving_hospital ∧
        pat.status = "Referred" ∧
        hospInv db') ∧
    (∀ (db : Database) (pid aid : String), hospInv db →
      hospInv (ReferralService.assign_ambulance db pid aid).1) ∧
    (∀ (db : Database) (aid pid : String), hospInv db →
      hospInv (DriverUI.accept_mission db aid pid)) ∧
    (∀ (db : Database) (aid pid : String), hospInv db →
      hospInv (DriverUI.complete_mission db aid pid)) ∧
    (∀ (db : Database) (pid stt : String), hospInv db →
      hospInv (ReferralUI.update_patient_status db pid stt)) ∧
    (∀ (db : Database) (uh : Option String) (pid : String) (v : Vitals)
        (phys nts rl : String) (db' : Database), hospInv db →
      HandoverUI.create_handover_form db uh pid v phys nts rl = .ok db' →
      hospInv db') ∧
    (∀ (db : Database) (aid : String), hospInv db →
      hospInv (DriverUI.mark_available db aid) ∧
      hospInv (DriverUI.mark_on_break db aid) ∧
      hospInv (DriverUI.mark_maintenance db aid)) ∧
    (∀ (db : Database) (aid : String) (lat lng : ℚ) (nm : String)
        (pid : Option String), hospInv db →
      hospInv (AmbulanceService.update_ambulance_location db aid lat lng nm pid).1) ∧
    (∀ (db : Database) (aid pid : String) (slat slng elat elng : ℚ)
        (cancel : Option Nat), hospInv db →
      hospInv (LocationSimulator.start_simulation db aid pid slat slng elat elng cancel)) := by
  refine ⟨?_, ?_, ?_,
    fun db pid aid h => hospInv_assign db pid aid h,
    fun db aid pid h => hospInv_accept db aid pid h,
    fun db aid pid h => hospInv_complete db aid pid h,
    fun db pid stt h => hospInv_update_status db pid stt h,
    fun db uh pid v phys nts rl db' h hok => hospInv_handover db uh pid v phys nts rl db' h hok,
    fun db aid h => ⟨hospInv_mark_available db aid h, hospInv_mark_on_break db aid h,
      hospInv_mark_maintenance db aid h⟩,
    fun db aid lat lng nm pid h => hospInv_update_loc db aid lat lng nm pid h,
    fun db aid pid slat slng elat elng cancel h =>
      hospInv_sim db aid pid slat slng elat elng cancel h⟩
  · intro db fid coords inp role heq
    by_cases hall : (pyTruthyS inp.name && (inp.age != 0) && pyTruthyS inp.condition &&
        pyTruthyS inp.referring_physician && pyTruthyS inp.referring_hospital &&
        pyTruthyS inp.receiving_hospital) = true
    · refine ⟨.sameHospital, ?_⟩
      have hnot : (!(pyTruthyS inp.name && (inp.age != 0) && pyTruthyS inp.condition &&
          pyTruthyS inp.referring_physician && pyTruthyS inp.referring_hospital &&
          pyTruthyS inp.receiving_hospital)) = false := by
        rw [hall]
        rfl
      have hbeq : (inp.referring_hospital == inp.receiving_hospital) = true := by
        simp [heq]
      unfold ReferralUI.create_referral_form
      rw [hnot, hbeq]
      simp
    · refine ⟨.missingFields, ?_⟩
      simp only [Bool.not_eq_true] at hall
      have hnot : (!(pyTruthyS inp.name && (inp.age != 0) && pyTruthyS inp.condition &&
          pyTruthyS inp.referring_physician && pyTruthyS inp.referring_hospital &&
          pyTruthyS inp.receiving_hospital)) = true := by
        rw [hall]
        rfl
      unfold ReferralUI.create_referral_form
      rw [hnot]
      simp
  · intro db fid coords inp role hm
    have hall : (pyTruthyS inp.name && (inp.age != 0) && pyTruthyS inp.condition &&
        pyTruthyS inp.referring_physician && pyTruthyS inp.referring_hospital &&
        pyTruthyS inp.receiving_hospital) = false := by
      cases hco : (pyTruthyS inp.name && (inp.age != 0) && pyTruthyS inp.condition &&
          pyTruthyS inp.referring_physician && pyTruthyS inp.referring_hospital &&
          pyTruthyS inp.receiving_hospital)
      · rfl
      · exfalso
        simp only [Bool.and_eq_true] at hco
        obtain ⟨⟨⟨⟨⟨hn, ha⟩, hc⟩, hrp⟩, hrh⟩, hvh⟩ := hco
        rcases hm with h1 | h1 | h1 | h1 | h1 | h1
        · rw [h1] at hn
          simp [pyTruthyS] at hn
          exact absurd hn (by decide)
        · rw [h1] at ha
          simp at ha
        · rw [h1] at hc
          simp [pyTruthyS] at hc
          exact absurd hc (by decide)
        · rw [h1] at hrp
          simp [pyTruthyS] at hrp
          exact absurd hrp (by decide)
        · rw [h1] at hrh
          simp [pyTruthyS] at hrh
          exact absurd hrh (by decide)
        · rw [h1] at hvh
          simp [pyTruthyS] at hvh
          exact absurd hvh (by decide)
    have hnot : (!(pyTruthyS inp.name && (inp.age != 0) && pyTruthyS inp.condition &&
        pyTruthyS inp.referring_physician && pyTruthyS inp.referring_hospital &&
        pyTruthyS inp.receiving_hospital)) = true := by
      rw [hall]
      rfl
    unfold ReferralUI.create_referral_form
    rw [hnot]
    simp
  · intro db fid coords inp role h hall hne
    have hnot : (!(pyTruthyS inp.name && (inp.age != 0) && pyTruthyS inp.condition &&
        pyTruthyS inp.referring_physician && pyTruthyS inp.referring_hospital &&
        pyTruthyS inp.receiving_hospital)) = false := by
      rw [hall]
      rfl
    have hbeq : (inp.referring_hospital == inp.receiving_hospital) = false := by
      simp [hne]
    have hok : ReferralUI.create_referral_form db fid coords inp role
        = .ok (ReferralService.create_referral db { patient_id := fid, name := inp.name, age := inp.age, condition := inp.condition, referring_hospital := inp.referring_hospital, receiving_hospital := inp.receiving_hospital, referring_physician := inp.referring_physician, receiving_physician := some inp.receiving_physician, notes := inp.notes, medical_history := inp.medical_history, current_medications := inp.current_medications, allergies := inp.allergies, status := "Referred", assigned_ambulance := inp.ambulance_choice, referring_hospital_lat := some (coords inp.referring_hospital).1, referring_hospital_lng := some (coords inp.referring_hospital).2, receiving_hospital_lat := some (coords inp.receiving_hospital).1, receiving_hospital_lng := some (coords inp.receiving_hospital).2 } role) := by
      unfold ReferralUI.create_referral_form
      rw [hnot, hbeq]
      simp
    refine ⟨_, _, hok, rfl, hne, rfl, ?_⟩
    intro q hq
    rcases List.mem_append.mp hq with hq1 | hq1
    · exact h q hq1
    · rcases List.mem_singleton.mp hq1 with rfl
      exact hne

/-- C8 witness: the same-hospital refusal evaluated on a concrete input, and
the success path on a concrete valid input. -/
theorem claim_C8_witness :
    (∃ e : UIError,
      ReferralUI.create_referral_form exDbC8 "PX" (fun _ => (0, 0)) exInpC8 "Admin"
        = .error e) ∧
    (∃ (db' : Database) (pat : Patient),
      ReferralUI.create_referral_form exDbC8 "PY" (fun _ => (0, 0)) exInpC9 "Admin"
        = .ok (db', pat) ∧
      db'.patients = exDbC8.patients ++ [pat] ∧
      pat.referring_hospital ≠ pat.receiving_hospital ∧
      pat.status = "Referred" ∧
      hospInv db') :=
  ⟨claim_C8.1 exDbC8 "PX" (fun _ => (0, 0)) exInpC8 "Admin" rfl,
   claim_C8.2.2.1 exDbC8 "PY" (fun _ => (0, 0)) exInpC9 "Admin" (by decide) (by decide)
     (by decide)⟩
